import Mathlib

/-!
Shallow embedding of the criminal-records Flask application
(`run_criminal_dbms.py`): the relational tables it queries, the SQL
semantics its statements rely on (LIKE patterns, left joins, grouped
string aggregation, foreign-key enforcement on delete), and each request
handler as a pure function from session/database/form state to a
response, an updated database, the flash messages, and the connection
lifecycle facts (opened / closed / exception escaped).

Database-side behaviour that lives outside the Python file (the
foreign-key constraints and the `sp_AddCriminalWithCase` procedure) is
modelled from the specification and marked as such on each definition.
-/

/-! ## Data model: one structure per table row -/

/-- A row of the `LawEnforcement` table (the Officer entity):
`SELECT *` on it yields these columns, read by the login handler. -/
structure Officer where
  officerid : Nat
  username : String
  passwordhash : String
  firstname : String
  lastname : String
deriving DecidableEq

/-- A row of the `Criminal` table.  `updatedAt` is `NULL` until an
`UPDATE ... SET UpdatedAt = NOW()` touches the row; `NOW()` is modelled
as an abstract tick supplied by the caller. -/
structure Criminal where
  criminalID : Nat
  firstName : String
  lastName : String
  dateOfBirth : String
  gender : String
  nationalID : String
  address : String
  status : String
  dangerLevel : String
  updatedAt : Option Nat
deriving DecidableEq

/-- A row of the `CaseTable` table.  `updatedAt` is `NULL` until an
`UPDATE ... SET UpdatedAt = NOW()` touches the row; `NOW()` is modelled
as an abstract tick supplied by the caller. -/
structure CaseRow where
  caseID : Nat
  caseTitle : String
  description : String
  dateReported : String
  dateClosed : Option String
  status : String
  priority : String
  locationID : Option Nat
  investigatingOfficer : String
  caseNumber : String
  updatedAt : Option Nat
deriving DecidableEq

/-- A row of the `Location` table. -/
structure Location where
  locationID : Nat
  address : String
  city : String
  state : String
deriving DecidableEq

/-- A row of the `Crime` reference table. -/
structure Crime where
  crimeID : Nat
  crimeType : String
deriving DecidableEq

/-- A row of the `CriminalCase` association table.  `dateAssociated` is
modelled as an abstract orderable tick. -/
structure CriminalCase where
  criminalID : Nat
  caseID : Nat
  role : String
  dateAssociated : Nat
deriving DecidableEq

/-- A row of the `CaseCrime` association table (`cci` in the queries). -/
structure CaseCrime where
  caseID : Nat
  crimeID : Nat
deriving DecidableEq

/-- The whole relational state the application reads and writes. -/
structure DB where
  officers : List Officer
  criminals : List Criminal
  cases : List CaseRow
  locations : List Location
  crimes : List Crime
  criminalCases : List CriminalCase
  caseCrimes : List CaseCrime
deriving DecidableEq

/-- The Flask session dictionary slice this application uses.  A missing
`officer_id` key is `none`. -/
structure Session where
  officerId : Option Nat
  username : Option String
  officerName : Option String
deriving DecidableEq

/-- The empty session (after `session.clear()` or before login). -/
def Session.empty : Session := ⟨none, none, none⟩

/-! ## SQL LIKE semantics

`LOWER(col) LIKE LOWER(%s)` with a `%term%` pattern.  `likeMatch`
implements PostgreSQL `LIKE` over character lists: `%` matches any
sequence, `_` matches exactly one character, a backslash escapes the
following pattern character (a pattern ending in a lone backslash is an
error in PostgreSQL; it is modelled as matching nothing). -/

/-- `anyTail f s`: does `f` accept some suffix of `s` (including `s`
itself and the empty suffix)?  Drives the backtracking of `%`. -/
def anyTail (f : List Char → Bool) : List Char → Bool
  | [] => f []
  | c :: s => f (c :: s) || anyTail f s

def likeMatch : List Char → (List Char → Bool)
  | [] => fun s => s.isEmpty
  | p :: ps =>
    if p = '%' then anyTail (likeMatch ps)
    else if p = '_' then fun s =>
      match s with
      | [] => false
      | _ :: s' => likeMatch ps s'
    else if p = '\\' then
      match ps with
      | [] => fun _ => false
      | pc :: ps' => fun s =>
        match s with
        | [] => false
        | c :: s' => decide (pc = c) && likeMatch ps' s'
    else fun s =>
      match s with
      | [] => false
      | c :: s' => decide (p = c) && likeMatch ps s'

/-- `LOWER` applied to a SQL text value, viewed as its character list. -/
def sqlLower (s : String) : List Char := s.data.map Char.toLower

/-- `LOWER(col) LIKE LOWER(pat)`: the case-insensitive LIKE test the
search queries apply to each column. -/
def sqlLikeCI (col pat : String) : Bool := likeMatch (sqlLower pat) (sqlLower col)

/-- `col LIKE pat` without `LOWER` (used by the dashboard's
`Status LIKE 'Closed%'` count). -/
def sqlLike (col pat : String) : Bool := likeMatch pat.data col.data

/-! ## Sorting and DISTINCT aggregation -/

/-- Insert into a list sorted by `le` (used to model SQL `ORDER BY`,
whose tie order is unspecified; this picks a deterministic one). -/
def insertBy (le : α → α → Bool) (x : α) : List α → List α
  | [] => [x]
  | y :: ys => if le x y then x :: y :: ys else y :: insertBy le x ys

/-- Insertion sort by `le`. -/
def sortBy (le : α → α → Bool) : List α → List α
  | [] => []
  | x :: xs => insertBy le x (sortBy le xs)

/-- Collapse adjacent duplicates of a sorted list. -/
def dedupAdj : List String → List String
  | [] => []
  | [x] => [x]
  | x :: y :: rest => if x = y then dedupAdj (y :: rest) else x :: dedupAdj (y :: rest)

/-- Ascending string order as a Bool (models the default sort order a
`DISTINCT` aggregate processes its input in). -/
def strLe (a b : String) : Bool := decide (a ≤ b)

/-- `STRING_AGG(DISTINCT v, sep)`: `NULL` inputs are dropped, the
remaining values are deduplicated (PostgreSQL feeds a DISTINCT aggregate
its input sorted), and joined with `sep`; with no non-NULL input the
aggregate is SQL `NULL` (`none`). -/
def stringAggDistinct (vals : List (Option String)) (sep : String) : Option String :=
  match dedupAdj (sortBy strLe (vals.filterMap id)) with
  | [] => none
  | ys => some (String.intercalate sep ys)

/-- SQL `CONCAT(a, ' ', b)` over nullable texts: `NULL` arguments are
ignored (treated as empty), the result is never `NULL`. -/
def sqlConcatName (a b : Option String) : String :=
  (a.getD "") ++ " " ++ (b.getD "")

/-! ## Left joins -/

/-- One step of a `LEFT JOIN`: the matching right-side rows, or a single
`NULL` row when nothing matches. -/
def ljoin (ms : List α) : List (Option α) :=
  match ms with
  | [] => [none]
  | ms => ms.map some

/-! ## Query embeddings -/

/-- `SELECT * FROM LawEnforcement WHERE Username = %s` followed by
`fetchone()`: the first row whose username equals the submitted one. -/
def lookupOfficer (db : DB) (u : String) : Option Officer :=
  db.officers.find? (fun o => o.username = u)

/-- The criminal-search `WHERE` clause: case-insensitive `%term%` LIKE
over first name, last name, national id. -/
def criminalMatches (term : String) (c : Criminal) : Bool :=
  sqlLikeCI c.firstName ("%" ++ term ++ "%") ||
  sqlLikeCI c.lastName ("%" ++ term ++ "%") ||
  sqlLikeCI c.nationalID ("%" ++ term ++ "%")

/-- `SELECT * FROM Criminal WHERE ...` for the criminal search. -/
def searchCriminals (db : DB) (term : String) : List Criminal :=
  db.criminals.filter (criminalMatches term)

/-- The case-search `WHERE` clause: case-insensitive `%term%` LIKE over
title, description, case number. -/
def caseMatches (term : String) (ct : CaseRow) : Bool :=
  sqlLikeCI ct.caseTitle ("%" ++ term ++ "%") ||
  sqlLikeCI ct.description ("%" ++ term ++ "%") ||
  sqlLikeCI ct.caseNumber ("%" ++ term ++ "%")

/-- `FROM CaseTable ct LEFT JOIN Location l ON ct.LocationID =
l.LocationID` for one case: the joined location rows (a `NULL` location
when the case has none or it matches no `Location` row). -/
def caseLocJoin (db : DB) (ct : CaseRow) : List (Option Location) :=
  ljoin (db.locations.filter (fun l => ct.locationID = some l.locationID))

/-- The case search: left join to `Location`, filter by the `WHERE`
clause (which only reads `ct` columns), keeping one row per joined pair. -/
def searchCases (db : DB) (term : String) : List (CaseRow × Option Location) :=
  (db.cases.flatMap (fun ct => (caseLocJoin db ct).map (fun l => (ct, l)))).filter
    (fun r => caseMatches term r.1)

/-- The right side of `LEFT JOIN Criminal c ON cc.CriminalID =
c.CriminalID`: when the joined `cc` is already `NULL` the condition is
`NULL`, so nothing matches. -/
def criminalSrc (db : DB) (cc : Option CriminalCase) : List Criminal :=
  match cc with
  | none => []
  | some cc => db.criminals.filter (fun c => c.criminalID = cc.criminalID)

/-- The right side of `LEFT JOIN Crime cr ON cci.CrimeID = cr.CrimeID`,
with the same `NULL` propagation. -/
def crimeSrc (db : DB) (cci : Option CaseCrime) : List Crime :=
  match cci with
  | none => []
  | some cci => db.crimes.filter (fun cr => cr.crimeID = cci.crimeID)

/-- The chain of left joins the case-listing query builds under one
`CaseTable` row: Location, CriminalCase, Criminal (on the possibly-NULL
`cc.CriminalID`), CaseCrime, Crime (on the possibly-NULL `cci.CrimeID`).
Two independent association joins on the same case multiply out, which
is why the aggregates below use DISTINCT. -/
def caseJoinRows (db : DB) (ct : CaseRow) :
    List (Option Location × Option CriminalCase × Option Criminal × Option CaseCrime × Option Crime) :=
  (caseLocJoin db ct).flatMap fun l =>
  (ljoin (db.criminalCases.filter (fun cc => cc.caseID = ct.caseID))).flatMap fun cc =>
  (ljoin (criminalSrc db cc)).flatMap fun c =>
  (ljoin (db.caseCrimes.filter (fun cci => cci.caseID = ct.caseID))).flatMap fun cci =>
  (ljoin (crimeSrc db cci)).map fun cr =>
  (l, cc, c, cci, cr)

/-- One output row of the case-listing aggregate query. -/
structure CaseAggRow where
  caseID : Nat
  caseTitle : String
  dateReported : String
  status : String
  address : Option String
  city : Option String
  state : Option String
  criminals : Option String
  crimes : Option String
deriving DecidableEq

/-- The group of joined rows for one case, folded to one output row.
`CaseID` is the primary key of `CaseTable` and `LocationID` of
`Location`, so the query's `GROUP BY ct.CaseID, l.Address, l.City,
l.State` forms exactly one group per `CaseTable` row; the location
columns come from the (at most one) matching location.
`criminals` aggregates `CONCAT(c.FirstName, ' ', c.LastName)` — never
`NULL`, a bare `' '` when both name columns are `NULL` — and `crimes`
aggregates the nullable `cr.CrimeType`. -/
def mkCaseAggRow (db : DB) (ct : CaseRow) : CaseAggRow :=
  let rows := caseJoinRows db ct
  let loc := (db.locations.filter (fun l => ct.locationID = some l.locationID)).head?
  { caseID := ct.caseID
    caseTitle := ct.caseTitle
    dateReported := ct.dateReported
    status := ct.status
    address := loc.map (·.address)
    city := loc.map (·.city)
    state := loc.map (·.state)
    criminals := stringAggDistinct
      (rows.map (fun r => some (sqlConcatName (r.2.2.1.map (·.firstName)) (r.2.2.1.map (·.lastName))))) ", "
    crimes := stringAggDistinct (rows.map (fun r => r.2.2.2.2.map (·.crimeType))) ", " }

/-- The `/cases` listing query: one aggregated row per case, ordered by
`ct.CaseID DESC`. -/
def casesAggregate (db : DB) : List CaseAggRow :=
  sortBy (fun a b => decide (b.caseID ≤ a.caseID)) (db.cases.map (mkCaseAggRow db))

/-- The four scalar dashboard counts. -/
structure DashboardStats where
  totalCriminals : Nat
  openCases : Nat
  closedCases : Nat
  crimeTypes : Nat
deriving DecidableEq

/-- The dashboard's four `SELECT COUNT(*)` queries: all criminals, cases
with `Status IN ('Open', 'Under Investigation')`, cases with
`Status LIKE 'Closed%'`, and all crime rows. -/
def dashboardStats (db : DB) : DashboardStats :=
  { totalCriminals := db.criminals.length
    openCases := db.cases.countP (fun ct => ct.status = "Open" || ct.status = "Under Investigation")
    closedCases := db.cases.countP (fun ct => sqlLike ct.status "Closed%")
    crimeTypes := db.crimes.length }

/-- One row of the dashboard's recent-activity query. -/
structure ActivityRow where
  firstName : String
  lastName : String
  role : String
  caseTitle : String
  dateAssociated : Nat
deriving DecidableEq

/-- The dashboard's recent-activity query: `CriminalCase` inner-joined
to `Criminal` and `CaseTable`, ordered by `DateAssociated DESC`,
`LIMIT 5`. -/
def recentActivities (db : DB) : List ActivityRow :=
  (sortBy (fun a b => decide (b.dateAssociated ≤ a.dateAssociated))
    (db.criminalCases.flatMap fun cc =>
      (db.criminals.filter (fun c => cc.criminalID = c.criminalID)).flatMap fun c =>
        (db.cases.filter (fun ct => cc.caseID = ct.caseID)).map fun ct =>
          { firstName := c.firstName, lastName := c.lastName, role := cc.role,
            caseTitle := ct.caseTitle, dateAssociated := cc.dateAssociated })).take 5

/-- `SELECT Status, COUNT(*) ... GROUP BY Status ORDER BY Status` over
the case table. -/
def caseStatusReport (db : DB) : List (String × Nat) :=
  (dedupAdj (sortBy strLe (db.cases.map (·.status)))).map
    (fun st => (st, db.cases.countP (fun ct => ct.status = st)))

/-- `SELECT cr.CrimeType, COUNT(cci.CaseID) ... FROM Crime cr LEFT JOIN
CaseCrime cci ... GROUP BY cr.CrimeType ORDER BY total DESC`: the count
skips the `NULL` rows a matchless left join produces, so a crime type
with no associated case reports 0. -/
def crimeStatsReport (db : DB) : List (String × Nat) :=
  sortBy (fun a b => decide (b.2 ≤ a.2))
    ((dedupAdj (sortBy strLe (db.crimes.map (·.crimeType)))).map
      (fun t => (t, ((db.crimes.filter (fun cr => cr.crimeType = t)).map
        (fun cr => db.caseCrimes.countP (fun cci => cci.crimeID = cr.crimeID))).sum)))

/-- `SELECT Status, COUNT(*) ... GROUP BY Status ORDER BY Status` over
the criminal table. -/
def criminalStatusReport (db : DB) : List (String × Nat) :=
  (dedupAdj (sortBy strLe (db.criminals.map (·.status)))).map
    (fun st => (st, db.criminals.countP (fun c => c.status = st)))

/-- `SELECT LocationID, Address, City FROM Location ORDER BY City` (the
add/edit-case location dropdown). -/
def locationsByCity (db : DB) : List Location :=
  sortBy (fun a b => strLe a.city b.city) db.locations

/-! ## Timestamp formatting (`datetime.now().strftime('%Y%m%d%H%M%S')`) -/

/-- A wall-clock reading, as the fields `strftime` renders. -/
structure DateTime where
  year : Nat
  month : Nat
  day : Nat
  hour : Nat
  minute : Nat
  second : Nat
deriving DecidableEq

/-- The decimal digit character for `n % 10`. -/
def digitChar (n : Nat) : Char := Char.ofNat (48 + n % 10)

/-- Two-digit zero-padded decimal, as `strftime` `%m %d %H %M %S`
render values below 100. -/
def pad2 (n : Nat) : String := String.mk [digitChar (n / 10), digitChar n]

/-- Four-digit zero-padded decimal, as `strftime` `%Y` renders years in
`[1000, 9999]`. -/
def pad4 (n : Nat) : String :=
  String.mk [digitChar (n / 1000), digitChar (n / 100), digitChar (n / 10), digitChar n]

/-- `strftime('%Y%m%d%H%M%S')` for an in-range clock reading. -/
def formatTimestamp (t : DateTime) : String :=
  pad4 t.year ++ pad2 t.month ++ pad2 t.day ++ pad2 t.hour ++ pad2 t.minute ++ pad2 t.second

/-- The generated case number: `f"CASE-{...strftime('%Y%m%d%H%M%S')}"`. -/
def makeCaseNumber (t : DateTime) : String := "CASE-" ++ formatTimestamp t

/-! ## Errors raised by the database

Modelled from the spec: the foreign-key constraints live in the database
schema, not in the Python file; deleting a referenced row makes the
`DELETE` raise an error whose text contains the PostgreSQL phrase
`violates foreign key constraint`, and the transaction is rolled back. -/

/-- `pat in s` (Python substring test, used on `str(e)`). -/
def containsSubstr (s pat : String) : Bool := decide (pat.data <:+: s.data)

/-- Modelled from the spec: the PostgreSQL error text raised when a
`DELETE FROM Criminal` hits the `CriminalCase.CriminalID` foreign key. -/
def fkDeleteCriminalError : String :=
  "update or delete on table \"criminal\" violates foreign key constraint on table \"criminalcase\""

/-- Modelled from the spec: the PostgreSQL error text raised when a
`DELETE FROM CaseTable` hits a `CriminalCase.CaseID` or
`CaseCrime.CaseID` foreign key. -/
def fkDeleteCaseError : String :=
  "update or delete on table \"casetable\" violates foreign key constraint on table \"criminalcase\""

/-- Modelled from the spec: a `DELETE FROM Criminal WHERE CriminalID = id`
raises the foreign-key error exactly when it would remove a row that
some `CriminalCase` row still references. -/
def criminalDeleteBlocked (db : DB) (cid : Nat) : Bool :=
  db.criminals.any (fun c => c.criminalID = cid) &&
  db.criminalCases.any (fun cc => cc.criminalID = cid)

/-- Modelled from the spec: a `DELETE FROM CaseTable WHERE CaseID = id`
raises the foreign-key error exactly when it would remove a row that an
association row (`CriminalCase` or `CaseCrime`) still references. -/
def caseDeleteBlocked (db : DB) (cid : Nat) : Bool :=
  db.cases.any (fun ct => ct.caseID = cid) &&
  (db.criminalCases.any (fun cc => cc.caseID = cid) ||
   db.caseCrimes.any (fun cci => cci.caseID = cid))

/-! ## Request handlers

Each handler is a pure function of the session, the connection
availability (`connOk`: whether `get_db_connection()` returns a
connection), the database, the request (method / form fields / url
parameters), and a fault model: `qFail` means the first SQL statement
the handler executes raises, with `errMsg` as its `str(e)` text.  The
output records the response, the resulting database and session, the
flash messages emitted (in order), and the connection lifecycle:
`connOpened` (a connection was acquired), `connClosed` (it was closed
before the handler returned), `raised` (an exception escaped the
handler to the framework). -/

/-- Search results are a single variable in the handler, holding rows of
whichever entity was searched (empty when no branch ran). -/
inductive SearchResults where
  | noResults
  | criminalRows (rs : List Criminal)
  | caseRows (rs : List (CaseRow × Option Location))
deriving DecidableEq

/-- `len(search_results)`. -/
def SearchResults.count : SearchResults → Nat
  | .noResults => 0
  | .criminalRows rs => rs.length
  | .caseRows rs => rs.length

/-- The data handed to `render_template`, per template. -/
inductive PageData where
  | noData
  | loginPage
  | dashboardPage (officerName : String) (stats : DashboardStats) (recent : List ActivityRow)
  | reportsPage (caseStatus crimeStats criminalStatus : List (String × Nat))
  | searchPage (results : SearchResults) (searchType query : String)
  | criminalsPage (cs : List Criminal)
  | casesPage (rs : List CaseAggRow)
  | addCriminalPage
  | editCriminalPage (c : Criminal)
  | addCasePage (locs : List Location)
  | editCasePage (c : CaseRow) (locs : List Location)
deriving DecidableEq

/-- A handler's HTTP-level outcome. -/
inductive Resp where
  | redirect (endpoint : String)
  | render (template : String) (data : PageData)
  | serverError
deriving DecidableEq

/-- Everything a handler invocation produces. -/
structure HandlerOut where
  resp : Resp
  db : DB
  session : Session
  flashes : List (String × String)
  connOpened : Bool
  connClosed : Bool
  raised : Bool
deriving DecidableEq

/-- The outcome of the `if 'officer_id' not in session: return
redirect(url_for('login'))` guard: no connection touched, no flash, no
database access. -/
def unauthOut (db : DB) (s : Session) : HandlerOut :=
  { resp := .redirect "login", db := db, session := s, flashes := [],
    connOpened := false, connClosed := false, raised := false }

/-- `GET /`. -/
def indexHandler (db : DB) (s : Session) : HandlerOut :=
  { resp := .redirect "login", db := db, session := s, flashes := [],
    connOpened := false, connClosed := false, raised := false }

/-- `GET /logout`. -/
def logoutHandler (db : DB) (_s : Session) : HandlerOut :=
  { resp := .redirect "login", db := db, session := Session.empty,
    flashes := [("You have been logged out.", "success")],
    connOpened := false, connClosed := false, raised := false }

/-- `GET,POST /login`. -/
def loginHandler (db : DB) (s : Session) (isPost connOk : Bool)
    (username password : String) (qFail : Bool) (errMsg : String) : HandlerOut :=
  if isPost then
    if connOk then
      if qFail then
        { resp := .render "login.html" .loginPage, db := db, session := s,
          flashes := [("Login error: " ++ errMsg, "error")],
          connOpened := true, connClosed := true, raised := false }
      else
        match lookupOfficer db username with
        | some user =>
          if user.passwordhash = password then
            { resp := .redirect "dashboard", db := db,
              session := { officerId := some user.officerid,
                           username := some user.username,
                           officerName := some (user.firstname ++ " " ++ user.lastname) },
              flashes := [("Login successful!", "success")],
              connOpened := true, connClosed := true, raised := false }
          else
            { resp := .render "login.html" .loginPage, db := db, session := s,
              flashes := [("Invalid username or password! Use: admin / admin123", "error")],
              connOpened := true, connClosed := true, raised := false }
        | none =>
          { resp := .render "login.html" .loginPage, db := db, session := s,
            flashes := [("Invalid username or password! Use: admin / admin123", "error")],
            connOpened := true, connClosed := true, raised := false }
    else
      { resp := .render "login.html" .loginPage, db := db, session := s,
        flashes := [("Database connection failed! Check .env file and network.", "error")],
        connOpened := false, connClosed := false, raised := false }
  else
    { resp := .render "login.html" .loginPage, db := db, session := s, flashes := [],
      connOpened := false, connClosed := false, raised := false }

/-- The `add/edit criminal` form fields. -/
structure CriminalForm where
  firstName : String
  lastName : String
  dob : String
  gender : String
  nationalID : String
  address : String
  status : String
  dangerLevel : String
deriving DecidableEq

/-- The `add/edit case` form fields.  `dateClosed` is
`request.form.get('date_closed') or None` (only the edit form sends it;
the add route never reads it and its `INSERT` leaves the column NULL). -/
structure CaseForm where
  caseTitle : String
  description : String
  dateReported : String
  dateClosed : Option String
  status : String
  priority : String
  locationID : Nat
  investigatingOfficer : String
deriving DecidableEq

/-- `SELECT * FROM Criminal ORDER BY CriminalID DESC`. -/
def criminalsListing (db : DB) : List Criminal :=
  sortBy (fun a b => decide (b.criminalID ≤ a.criminalID)) db.criminals

/-- Modelled from the spec: the database procedure
`sp_AddCriminalWithCase(...)` called with `NULL, NULL` case arguments
inserts one `Criminal` row (its serial id chosen by the database is the
`newId` argument) and creates no case. -/
def spAddCriminalWithCase (db : DB) (newId : Nat) (f : CriminalForm) : DB :=
  { db with criminals := db.criminals ++
      [{ criminalID := newId, firstName := f.firstName, lastName := f.lastName,
         dateOfBirth := f.dob, gender := f.gender, nationalID := f.nationalID,
         address := f.address, status := f.status, dangerLevel := f.dangerLevel,
         updatedAt := none }] }

/-- `UPDATE Criminal SET FirstName = ..., UpdatedAt = NOW() WHERE
CriminalID = %s`: every matching row gets exactly the listed columns
replaced. -/
def updateCriminal (db : DB) (cid : Nat) (f : CriminalForm) (now : Nat) : DB :=
  { db with criminals := db.criminals.map (fun c =>
      if c.criminalID = cid then
        { c with firstName := f.firstName, lastName := f.lastName,
                 dateOfBirth := f.dob, gender := f.gender, nationalID := f.nationalID,
                 address := f.address, status := f.status, dangerLevel := f.dangerLevel,
                 updatedAt := some now }
      else c) }

/-- `UPDATE CaseTable SET CaseTitle = ..., UpdatedAt = NOW() WHERE
CaseID = %s`: every matching row gets exactly the listed columns
replaced (`CaseNumber` and `CaseID` are not in the SET list). -/
def updateCase (db : DB) (cid : Nat) (f : CaseForm) (now : Nat) : DB :=
  { db with cases := db.cases.map (fun ct =>
      if ct.caseID = cid then
        { ct with caseTitle := f.caseTitle, description := f.description,
                  dateReported := f.dateReported, dateClosed := f.dateClosed,
                  status := f.status, priority := f.priority,
                  locationID := some f.locationID,
                  investigatingOfficer := f.investigatingOfficer,
                  updatedAt := some now }
      else ct) }

/-- The row `INSERT INTO CaseTable (CaseTitle, Description, DateReported,
Status, Priority, LocationID, InvestigatingOfficer, CaseNumber)` creates:
unlisted columns (`DateClosed`, `UpdatedAt`) stay NULL and the serial
`CaseID` is the database-chosen `newId`. -/
def newCaseRow (f : CaseForm) (t : DateTime) (newId : Nat) : CaseRow :=
  { caseID := newId, caseTitle := f.caseTitle, description := f.description,
    dateReported := f.dateReported, dateClosed := none, status := f.status,
    priority := f.priority, locationID := some f.locationID,
    investigatingOfficer := f.investigatingOfficer,
    caseNumber := makeCaseNumber t, updatedAt := none }

/-- `GET /dashboard`. -/
def dashboardHandler (db : DB) (s : Session) (connOk qFail : Bool) (errMsg : String) : HandlerOut :=
  if s.officerId = none then unauthOut db s
  else if !connOk then
    { resp := .render "dashboard.html"
        (.dashboardPage (s.officerName.getD "Officer") ⟨0, 0, 0, 0⟩ []),
      db := db, session := s,
      flashes := [("Database connection failed!", "error")],
      connOpened := false, connClosed := false, raised := false }
  else if qFail then
    { resp := .render "dashboard.html"
        (.dashboardPage (s.officerName.getD "Officer") ⟨0, 0, 0, 0⟩ []),
      db := db, session := s,
      flashes := [("Error loading dashboard data: " ++ errMsg, "error")],
      connOpened := true, connClosed := true, raised := false }
  else
    { resp := .render "dashboard.html"
        (.dashboardPage (s.officerName.getD "Officer") (dashboardStats db) (recentActivities db)),
      db := db, session := s, flashes := [],
      connOpened := true, connClosed := true, raised := false }

/-- `GET /reports`. -/
def reportsHandler (db : DB) (s : Session) (connOk qFail : Bool) (errMsg : String) : HandlerOut :=
  if s.officerId = none then unauthOut db s
  else if !connOk then
    { resp := .render "reports.html" (.reportsPage [] [] []),
      db := db, session := s,
      flashes := [("Database connection failed!", "error")],
      connOpened := false, connClosed := false, raised := false }
  else if qFail then
    { resp := .render "reports.html" (.reportsPage [] [] []),
      db := db, session := s,
      flashes := [("Error loading reports: " ++ errMsg, "error")],
      connOpened := true, connClosed := true, raised := false }
  else
    { resp := .render "reports.html"
        (.reportsPage (caseStatusReport db) (crimeStatsReport db) (criminalStatusReport db)),
      db := db, session := s, flashes := [],
      connOpened := true, connClosed := true, raised := false }

/-- `GET,POST /search`. -/
def searchHandler (db : DB) (s : Session) (isPost connOk : Bool)
    (searchType query : String) (qFail : Bool) (errMsg : String) : HandlerOut :=
  if s.officerId = none then unauthOut db s
  else if !isPost then
    { resp := .render "search.html" (.searchPage .noResults searchType query),
      db := db, session := s, flashes := [],
      connOpened := false, connClosed := false, raised := false }
  else if query = "" || searchType = "" then
    { resp := .render "search.html" (.searchPage .noResults searchType query),
      db := db, session := s,
      flashes := [("Please select a search type and enter a query.", "warning")],
      connOpened := false, connClosed := false, raised := false }
  else if !connOk then
    { resp := .render "search.html" (.searchPage .noResults searchType query),
      db := db, session := s,
      flashes := [("Database connection failed!", "error")],
      connOpened := false, connClosed := false, raised := false }
  else if searchType = "criminal" then
    if qFail then
      { resp := .render "search.html" (.searchPage .noResults searchType query),
        db := db, session := s,
        flashes := [("Search error: " ++ errMsg, "error")],
        connOpened := true, connClosed := true, raised := false }
    else
      let rs := searchCriminals db query
      { resp := .render "search.html" (.searchPage (.criminalRows rs) searchType query),
        db := db, session := s,
        flashes := [if rs.isEmpty then ("No results found.", "info")
                    else ("Found " ++ toString rs.length ++ " result(s).", "success")],
        connOpened := true, connClosed := true, raised := false }
  else if searchType = "case" then
    if qFail then
      { resp := .render "search.html" (.searchPage .noResults searchType query),
        db := db, session := s,
        flashes := [("Search error: " ++ errMsg, "error")],
        connOpened := true, connClosed := true, raised := false }
    else
      let rs := searchCases db query
      { resp := .render "search.html" (.searchPage (.caseRows rs) searchType query),
        db := db, session := s,
        flashes := [if rs.isEmpty then ("No results found.", "info")
                    else ("Found " ++ toString rs.length ++ " result(s).", "success")],
        connOpened := true, connClosed := true, raised := false }
  else
    { resp := .render "search.html" (.searchPage .noResults searchType query),
      db := db, session := s,
      flashes := [("No results found.", "info")],
      connOpened := true, connClosed := true, raised := false }

/-- `GET /criminals`.  Its queries run with no `try/finally`: a raising
statement escapes the handler and skips both `close()` calls. -/
def criminalsHandler (db : DB) (s : Session) (connOk qFail : Bool) : HandlerOut :=
  if s.officerId = none then unauthOut db s
  else if !connOk then
    { resp := .render "criminals.html" (.criminalsPage []),
      db := db, session := s,
      flashes := [("Database connection failed!", "error")],
      connOpened := false, connClosed := false, raised := false }
  else if qFail then
    { resp := .serverError, db := db, session := s, flashes := [],
      connOpened := true, connClosed := false, raised := true }
  else
    { resp := .render "criminals.html" (.criminalsPage (criminalsListing db)),
      db := db, session := s, flashes := [],
      connOpened := true, connClosed := true, raised := false }

/-- `GET,POST /criminals/add`. -/
def addCriminalHandler (db : DB) (s : Session) (isPost connOk : Bool)
    (f : CriminalForm) (newId : Nat) (qFail : Bool) (errMsg : String) : HandlerOut :=
  if s.officerId = none then unauthOut db s
  else if !isPost then
    { resp := .render "add_criminal.html" .addCriminalPage,
      db := db, session := s, flashes := [],
      connOpened := false, connClosed := false, raised := false }
  else if !connOk then
    { resp := .redirect "criminals", db := db, session := s,
      flashes := [("Database connection failed!", "error")],
      connOpened := false, connClosed := false, raised := false }
  else if qFail then
    { resp := .redirect "criminals", db := db, session := s,
      flashes := [("Error adding criminal: " ++ errMsg, "error")],
      connOpened := true, connClosed := true, raised := false }
  else
    { resp := .redirect "criminals", db := spAddCriminalWithCase db newId f, session := s,
      flashes := [("Successfully added criminal: " ++ f.firstName ++ " " ++ f.lastName, "success")],
      connOpened := true, connClosed := true, raised := false }

/-- `GET,POST /criminals/edit/<id>`. -/
def editCriminalHandler (db : DB) (s : Session) (cid : Nat) (isPost connOk : Bool)
    (f : CriminalForm) (now : Nat) (qFail : Bool) (errMsg : String) : HandlerOut :=
  if s.officerId = none then unauthOut db s
  else if !connOk then
    { resp := .redirect "criminals", db := db, session := s,
      flashes := [("Database connection failed!", "error")],
      connOpened := false, connClosed := false, raised := false }
  else if isPost then
    if qFail then
      { resp := .redirect "criminals", db := db, session := s,
        flashes := [("Error updating criminal: " ++ errMsg, "error")],
        connOpened := true, connClosed := true, raised := false }
    else
      { resp := .redirect "criminals", db := updateCriminal db cid f now, session := s,
        flashes := [("Criminal record updated successfully!", "success")],
        connOpened := true, connClosed := true, raised := false }
  else if qFail then
    { resp := .redirect "criminals", db := db, session := s,
      flashes := [("Error fetching criminal data: " ++ errMsg, "error")],
      connOpened := true, connClosed := true, raised := false }
  else
    match db.criminals.find? (fun c => c.criminalID = cid) with
    | none =>
      { resp := .redirect "criminals", db := db, session := s,
        flashes := [("Criminal not found!", "error")],
        connOpened := true, connClosed := true, raised := false }
    | some c =>
      { resp := .render "edit_criminal.html" (.editCriminalPage c),
        db := db, session := s, flashes := [],
        connOpened := true, connClosed := true, raised := false }

/-- `POST /criminals/delete/<id>`.  The caught error text is dispatched
on the Python substring test `'violates foreign key constraint' in
str(e)`. -/
def deleteCriminalHandler (db : DB) (s : Session) (cid : Nat) (connOk qFail : Bool)
    (errMsg : String) : HandlerOut :=
  if s.officerId = none then unauthOut db s
  else if !connOk then
    { resp := .redirect "criminals", db := db, session := s,
      flashes := [("Database connection failed!", "error")],
      connOpened := false, connClosed := false, raised := false }
  else
    match (if criminalDeleteBlocked db cid then some fkDeleteCriminalError
           else if qFail then some errMsg else none) with
    | some e =>
      { resp := .redirect "criminals", db := db, session := s,
        flashes := [if containsSubstr e "violates foreign key constraint" then
                      ("Error: Cannot delete criminal. They are still associated with one or more cases.", "error")
                    else ("Error deleting criminal: " ++ e, "error")],
        connOpened := true, connClosed := true, raised := false }
    | none =>
      { resp := .redirect "criminals",
        db := { db with criminals := db.criminals.filter (fun c => !(c.criminalID = cid)) },
        session := s,
        flashes := [("Criminal record deleted successfully.", "success")],
        connOpened := true, connClosed := true, raised := false }

/-- `GET /cases`. -/
def casesHandler (db : DB) (s : Session) (connOk qFail : Bool) (errMsg : String) : HandlerOut :=
  if s.officerId = none then unauthOut db s
  else if !connOk then
    { resp := .render "cases.html" (.casesPage []),
      db := db, session := s,
      flashes := [("Database connection failed!", "error")],
      connOpened := false, connClosed := false, raised := false }
  else if qFail then
    { resp := .render "cases.html" (.casesPage []),
      db := db, session := s,
      flashes := [("Error loading cases: " ++ errMsg, "error")],
      connOpened := true, connClosed := true, raised := false }
  else
    { resp := .render "cases.html" (.casesPage (casesAggregate db)),
      db := db, session := s, flashes := [],
      connOpened := true, connClosed := true, raised := false }

/-- `GET,POST /cases/add` (the connection is acquired before the method
branch, so the GET form page also opens one). -/
def addCaseHandler (db : DB) (s : Session) (isPost connOk : Bool)
    (f : CaseForm) (t : DateTime) (newId : Nat) (qFail : Bool) (errMsg : String) : HandlerOut :=
  if s.officerId = none then unauthOut db s
  else if !connOk then
    { resp := .redirect "cases", db := db, session := s,
      flashes := [("Database connection failed!", "error")],
      connOpened := false, connClosed := false, raised := false }
  else if isPost then
    if qFail then
      { resp := .redirect "cases", db := db, session := s,
        flashes := [("Error adding case: " ++ errMsg, "error")],
        connOpened := true, connClosed := true, raised := false }
    else
      { resp := .redirect "cases",
        db := { db with cases := db.cases ++ [newCaseRow f t newId] }, session := s,
        flashes := [("Case added successfully!", "success")],
        connOpened := true, connClosed := true, raised := false }
  else if qFail then
    { resp := .redirect "cases", db := db, session := s,
      flashes := [("Error loading page: " ++ errMsg, "error")],
      connOpened := true, connClosed := true, raised := false }
  else
    { resp := .render "add_case.html" (.addCasePage (locationsByCity db)),
      db := db, session := s, flashes := [],
      connOpened := true, connClosed := true, raised := false }

/-- `GET,POST /cases/edit/<id>`. -/
def editCaseHandler (db : DB) (s : Session) (cid : Nat) (isPost connOk : Bool)
    (f : CaseForm) (now : Nat) (qFail : Bool) (errMsg : String) : HandlerOut :=
  if s.officerId = none then unauthOut db s
  else if !connOk then
    { resp := .redirect "cases", db := db, session := s,
      flashes := [("Database connection failed!", "error")],
      connOpened := false, connClosed := false, raised := false }
  else if isPost then
    if qFail then
      { resp := .redirect "cases", db := db, session := s,
        flashes := [("Error updating case: " ++ errMsg, "error")],
        connOpened := true, connClosed := true, raised := false }
    else
      { resp := .redirect "cases", db := updateCase db cid f now, session := s,
        flashes := [("Case updated successfully!", "success")],
        connOpened := true, connClosed := true, raised := false }
  else if qFail then
    { resp := .redirect "cases", db := db, session := s,
      flashes := [("Error fetching case data: " ++ errMsg, "error")],
      connOpened := true, connClosed := true, raised := false }
  else
    match db.cases.find? (fun ct => ct.caseID = cid) with
    | none =>
      { resp := .redirect "cases", db := db, session := s,
        flashes := [("Case not found!", "error")],
        connOpened := true, connClosed := true, raised := false }
    | some ct =>
      { resp := .render "edit_case.html" (.editCasePage ct (locationsByCity db)),
        db := db, session := s, flashes := [],
        connOpened := true, connClosed := true, raised := false }

/-- `POST /cases/delete/<id>`.  Unlike criminal deletion there is no
substring dispatch on the error text: every failure flashes the raw
error text behind the `Error deleting case: ` prefix. -/
def deleteCaseHandler (db : DB) (s : Session) (cid : Nat) (connOk qFail : Bool)
    (errMsg : String) : HandlerOut :=
  if s.officerId = none then unauthOut db s
  else if !connOk then
    { resp := .redirect "cases", db := db, session := s,
      flashes := [("Database connection failed!", "error")],
      connOpened := false, connClosed := false, raised := false }
  else
    match (if caseDeleteBlocked db cid then some fkDeleteCaseError
           else if qFail then some errMsg else none) with
    | some e =>
      { resp := .redirect "cases", db := db, session := s,
        flashes := [("Error deleting case: " ++ e, "error")],
        connOpened := true, connClosed := true, raised := false }
    | none =>
      { resp := .redirect "cases",
        db := { db with cases := db.cases.filter (fun ct => !(ct.caseID = cid)) },
        session := s,
        flashes := [("Case deleted successfully.", "success")],
        connOpened := true, connClosed := true, raised := false }

/-! ## Specification-side predicates and derived notions -/

/-- The specification's search predicate, as worded: the query term is a
case-insensitive substring of the column value (both sides lowercased,
plain substring containment — no wildcard semantics).  Compared against
the code's `LIKE`-based behaviour. -/
def isCISubstring (term s : String) : Bool := decide (sqlLower term <:+: sqlLower s)

/-- Read a digit string back as a number (to state that the generated
case number encodes the clock fields). -/
def decodeDigits (cs : List Char) : Nat := cs.foldl (fun n c => 10 * n + (c.toNat - 48)) 0

/-- The resource discipline a handler invocation should satisfy: an
acquired connection is closed before returning, and no exception escapes
to the framework. -/
def cleansUp (o : HandlerOut) : Prop :=
  (o.connOpened = true → o.connClosed = true) ∧ o.raised = false

/-! ## Concrete sample data (used by witnesses and counterexamples) -/

/-- A stored officer record. -/
def officerAdmin : Officer := ⟨1, "admin", "admin123", "Ada", "Admin"⟩

/-- A session as `login` populates it for `officerAdmin`. -/
def sAdmin : Session := ⟨some 1, some "admin", some "Ada Admin"⟩

/-- A stored criminal record. -/
def crimJohn : Criminal := ⟨1, "John", "Smith", "1990-01-01", "M", "NID42", "12 Elm St", "Active", "High", none⟩

/-- A stored case record. -/
def caseRobbery : CaseRow :=
  ⟨1, "Elm St robbery", "Armed robbery at night", "2024-01-02", none, "Open", "High",
   none, "Officer Ada", "CASE-20240102030405", none⟩

/-- An association row linking `crimJohn` to `caseRobbery`. -/
def ccJohnRobbery : CriminalCase := ⟨1, 1, "Suspect", 7⟩

/-- A database holding only the officer record. -/
def dbAuth : DB := ⟨[officerAdmin], [], [], [], [], [], []⟩

/-- A database where the criminal is referenced by an association row. -/
def dbRef : DB := ⟨[officerAdmin], [crimJohn], [caseRobbery], [], [], [ccJohnRobbery], []⟩

/-- A database with one case and no associations at all. -/
def dbLoneCase : DB := ⟨[], [], [caseRobbery], [], [], [], []⟩

/-- A database with one criminal row, for search scenarios. -/
def dbSearch : DB := ⟨[], [crimJohn], [], [], [], [], []⟩

/-- A filled-in criminal form. -/
def cfSample : CriminalForm := ⟨"Jane", "Doe", "1985-05-05", "F", "NID7", "3 Oak Ave", "Wanted", "Low"⟩

/-- A filled-in case form. -/
def cafSample : CaseForm := ⟨"Oak Ave arson", "Arson in a garage", "2024-02-03", none, "Open", "Medium", 2, "Officer Ada"⟩

/-- A clock reading. -/
def t0 : DateTime := ⟨2026, 10, 12, 13, 14, 15⟩

/-- A second stored criminal record. -/
def crimJane : Criminal := ⟨2, "Jane", "Doe", "1985-05-05", "F", "NID7", "3 Oak Ave", "Wanted", "Low", none⟩

/-- An association row linking `crimJane` to `caseRobbery`. -/
def ccJaneRobbery : CriminalCase := ⟨2, 1, "Accomplice", 8⟩

/-- Crime reference rows. -/
def crimeTheft : Crime := ⟨1, "Theft"⟩

/-- A second crime reference row. -/
def crimeArson : Crime := ⟨2, "Arson"⟩

/-- Case-crime association rows for `caseRobbery`. -/
def cciTheft : CaseCrime := ⟨1, 1⟩

/-- A second case-crime association row for `caseRobbery`. -/
def cciArson : CaseCrime := ⟨1, 2⟩

/-- A database where the single case has two associated criminals and
two associated crimes. -/
def dbAssoc : DB :=
  ⟨[], [crimJohn, crimJane], [caseRobbery], [], [crimeTheft, crimeArson],
   [ccJohnRobbery, ccJaneRobbery], [cciTheft, cciArson]⟩

/-! ## Helper lemmas -/

theorem insertBy_perm (le : α → α → Bool) (x : α) (l : List α) :
    (insertBy le x l).Perm (x :: l) := by
  induction l with
  | nil => simp [insertBy]
  | cons y ys ih =>
    by_cases h : le x y = true
    · simp [insertBy, h]
    · simp only [insertBy, h]
      rw [if_neg (by simp [h])]
      exact (ih.cons y).trans (List.Perm.swap x y ys)

theorem sortBy_perm (le : α → α → Bool) (l : List α) : (sortBy le l).Perm l := by
  induction l with
  | nil => simp [sortBy]
  | cons x xs ih => exact (insertBy_perm le x (sortBy le xs)).trans (ih.cons x)

theorem mem_sortBy {le : α → α → Bool} {l : List α} {x : α} :
    x ∈ sortBy le l ↔ x ∈ l := (sortBy_perm le l).mem_iff

theorem filterMap_id_all_some {vs : List (Option String)} {x : String}
    (h : ∀ v ∈ vs, v = some x) : vs.filterMap id = List.replicate vs.length x := by
  induction vs with
  | nil => rfl
  | cons v vs ih =>
    have hv := h v (by simp)
    subst hv
    simp [List.filterMap_cons, List.replicate_succ, ih (fun w hw => h w (by simp [hw]))]

theorem filterMap_id_all_none {vs : List (Option String)}
    (h : ∀ v ∈ vs, v = none) : vs.filterMap id = [] := by
  induction vs with
  | nil => rfl
  | cons v vs ih =>
    have hv := h v (by simp)
    subst hv
    simp [List.filterMap_cons, ih (fun w hw => h w (by simp [hw]))]

theorem insertBy_strLe_replicate (x : String) (n : Nat) :
    insertBy strLe x (List.replicate n x) = List.replicate (n + 1) x := by
  cases n with
  | zero => rfl
  | succ m =>
    have : strLe x x = true := by simp [strLe]
    simp [List.replicate_succ, insertBy, this]

theorem sortBy_strLe_replicate (n : Nat) (x : String) :
    sortBy strLe (List.replicate n x) = List.replicate n x := by
  induction n with
  | zero => rfl
  | succ m ih =>
    rw [List.replicate_succ, sortBy, ih, insertBy_strLe_replicate, List.replicate_succ]

theorem dedupAdj_replicate (n : Nat) (x : String) :
    dedupAdj (List.replicate (n + 1) x) = [x] := by
  induction n with
  | zero => rfl
  | succ m ih => rw [List.replicate_succ, List.replicate_succ, dedupAdj, if_pos rfl,
      ← List.replicate_succ, ih]

theorem stringAgg_all_space {vs : List (Option String)} (hne : vs ≠ [])
    (h : ∀ v ∈ vs, v = some " ") : stringAggDistinct vs ", " = some " " := by
  unfold stringAggDistinct
  rw [filterMap_id_all_some h, sortBy_strLe_replicate]
  obtain ⟨m, hm⟩ : ∃ m, vs.length = m + 1 := by
    cases hv : vs with
    | nil => exact absurd hv hne
    | cons a as => exact ⟨as.length, by simp [hv]⟩
  rw [hm, dedupAdj_replicate]
  rfl

theorem stringAgg_all_none {vs : List (Option String)}
    (h : ∀ v ∈ vs, v = none) : stringAggDistinct vs ", " = none := by
  unfold stringAggDistinct
  rw [filterMap_id_all_none h]
  rfl

theorem ljoin_ne_nil (ms : List α) : ljoin ms ≠ [] := by
  cases ms <;> simp [ljoin]

theorem flatMap_singleton_eq_map (l : List α) (g : α → β) :
    (l.flatMap fun x => [g x]) = l.map g := by
  induction l with
  | nil => rfl
  | cons x xs ih => simp [List.flatMap_cons, ih]

theorem countP_disjoint_le (l : List α) (p q : α → Bool)
    (h : ∀ x ∈ l, ¬(p x = true ∧ q x = true)) :
    l.countP p + l.countP q ≤ l.length := by
  induction l with
  | nil => simp
  | cons x xs ih =>
    have hx := h x (by simp)
    have ihx := ih (fun y hy => h y (by simp [hy]))
    by_cases hp : p x = true
    · have hq : ¬q x = true := fun hq => hx ⟨hp, hq⟩
      rw [List.countP_cons_of_pos _ _ hp, List.countP_cons_of_neg _ _ hq]
      simp only [List.length_cons]
      omega
    · rw [List.countP_cons_of_neg _ _ hp]
      by_cases hq : q x = true
      · rw [List.countP_cons_of_pos _ _ hq]
        simp only [List.length_cons]
        omega
      · rw [List.countP_cons_of_neg _ _ hq]
        simp only [List.length_cons]
        omega

theorem anyTail_iff {f : List Char → Bool} {s : List Char} :
    anyTail f s = true ↔ ∃ t, t <:+ s ∧ f t = true := by
  induction s with
  | nil =>
    constructor
    · intro hf
      exact ⟨[], List.nil_suffix, hf⟩
    · rintro ⟨t, ht, hf⟩
      rw [List.suffix_nil] at ht
      subst ht
      exact hf
  | cons c s' ih =>
    rw [anyTail, Bool.or_eq_true, ih]
    constructor
    · rintro (hf | ⟨t, ht, hf⟩)
      · exact ⟨c :: s', List.suffix_refl _, hf⟩
      · exact ⟨t, ht.trans (List.suffix_cons c s'), hf⟩
    · rintro ⟨t, ht, hf⟩
      rcases List.suffix_cons_iff.mp ht with h | h
      · subst h
        exact Or.inl hf
      · exact Or.inr ⟨t, h, hf⟩

theorem likeMatch_pct (ps s : List Char) :
    likeMatch ('%' :: ps) s = anyTail (likeMatch ps) s := by
  rw [likeMatch.eq_def]
  simp only []
  rw [if_pos trivial]

theorem likeMatch_pct_iff {ps s : List Char} :
    likeMatch ('%' :: ps) s = true ↔ ∃ t, t <:+ s ∧ likeMatch ps t = true := by
  rw [likeMatch_pct, anyTail_iff]

theorem likeMatch_plain_nil {p : Char} (h1 : p ≠ '%') (h2 : p ≠ '_') (h3 : p ≠ '\\')
    (ps : List Char) : likeMatch (p :: ps) [] = false := by
  rw [likeMatch.eq_def]
  simp only []
  rw [if_neg h1, if_neg h2, if_neg h3]

theorem likeMatch_plain_cons {p : Char} (h1 : p ≠ '%') (h2 : p ≠ '_') (h3 : p ≠ '\\')
    (ps : List Char) (c : Char) (s' : List Char) :
    likeMatch (p :: ps) (c :: s') = (decide (p = c) && likeMatch ps s') := by
  rw [likeMatch.eq_def]
  simp only []
  rw [if_neg h1, if_neg h2, if_neg h3]

theorem likeMatch_plain_append_pct {qs : List Char}
    (h : ∀ c ∈ qs, c ≠ '%' ∧ c ≠ '_' ∧ c ≠ '\\') (s : List Char) :
    (likeMatch (qs ++ ['%']) s = true) ↔ qs <+: s := by
  induction qs generalizing s with
  | nil =>
    simp only [List.nil_append]
    constructor
    · intro _
      exact List.nil_prefix
    · intro _
      rw [likeMatch_pct, anyTail_iff]
      exact ⟨[], List.nil_suffix, rfl⟩
  | cons p qs ih =>
    have hp := h p (by simp)
    have ihs := ih (fun c hc => h c (by simp [hc]))
    cases s with
    | nil =>
      rw [List.cons_append, likeMatch_plain_nil hp.1 hp.2.1 hp.2.2]
      simp
    | cons c s' =>
      rw [List.cons_append, likeMatch_plain_cons hp.1 hp.2.1 hp.2.2,
        Bool.and_eq_true, decide_eq_true_eq, List.cons_prefix_cons]
      exact and_congr Iff.rfl (ihs s')

theorem likeMatch_substring {qs : List Char}
    (h : ∀ c ∈ qs, c ≠ '%' ∧ c ≠ '_' ∧ c ≠ '\\') (s : List Char) :
    likeMatch ('%' :: (qs ++ ['%'])) s = true ↔ qs <:+: s := by
  rw [likeMatch_pct_iff]
  constructor
  · rintro ⟨t, hts, hm⟩
    exact List.infix_iff_prefix_suffix.mpr ⟨t, (likeMatch_plain_append_pct h t).mp hm, hts⟩
  · intro hinf
    obtain ⟨t, hpre, hsuf⟩ := List.infix_iff_prefix_suffix.mp hinf
    exact ⟨t, hsuf, (likeMatch_plain_append_pct h t).mpr hpre⟩

theorem charToNat_ofNat_valid (n : Nat) (h : n < 55296) : (Char.ofNat n).toNat = n := by
  unfold Char.ofNat
  rw [dif_pos (Or.inl h : n.isValidChar)]
  rfl

theorem toLower_not_wild {c : Char} (h : c ≠ '%' ∧ c ≠ '_' ∧ c ≠ '\\') :
    c.toLower ≠ '%' ∧ c.toLower ≠ '_' ∧ c.toLower ≠ '\\' := by
  unfold Char.toLower
  by_cases hg : c.toNat ≥ 65 ∧ c.toNat ≤ 90
  · rw [if_pos hg]
    have hlt : c.toNat + 32 < 55296 := by omega
    have hval := charToNat_ofNat_valid (c.toNat + 32) hlt
    refine ⟨fun he => ?_, fun he => ?_, fun he => ?_⟩ <;> rw [he] at hval
    · have h37 : ('%').toNat = 37 := rfl
      rw [h37] at hval
      omega
    · have h95 : ('_').toNat = 95 := rfl
      rw [h95] at hval
      omega
    · have h92 : ('\\').toNat = 92 := rfl
      rw [h92] at hval
      omega
  · rw [if_neg hg]
    exact h

theorem sqlLower_append (a b : String) : sqlLower (a ++ b) = sqlLower a ++ sqlLower b := by
  simp [sqlLower, String.data_append]

theorem sqlLikeCI_pattern (col q : String) :
    sqlLikeCI col ("%" ++ q ++ "%") = likeMatch ('%' :: (sqlLower q ++ ['%'])) (sqlLower col) := by
  unfold sqlLikeCI
  rw [sqlLower_append, sqlLower_append]
  rfl

theorem sqlLower_no_wild {q : String} (h : ∀ c ∈ q.data, c ≠ '%' ∧ c ≠ '_' ∧ c ≠ '\\') :
    ∀ c ∈ sqlLower q, c ≠ '%' ∧ c ≠ '_' ∧ c ≠ '\\' := by
  intro c hc
  rw [sqlLower, List.mem_map] at hc
  obtain ⟨c0, hc0, rfl⟩ := hc
  exact toLower_not_wild (h c0 hc0)

theorem sqlLikeCI_iff_substring {q : String}
    (h : ∀ c ∈ q.data, c ≠ '%' ∧ c ≠ '_' ∧ c ≠ '\\') (col : String) :
    sqlLikeCI col ("%" ++ q ++ "%") = true ↔ isCISubstring q col = true := by
  rw [sqlLikeCI_pattern, likeMatch_substring (sqlLower_no_wild h), isCISubstring,
    decide_eq_true_eq]

theorem digitChar_isDigit (n : Nat) : (digitChar n).isDigit = true := by
  unfold digitChar
  have h : n % 10 < 10 := Nat.mod_lt _ (by omega)
  revert h
  generalize n % 10 = r
  intro h
  interval_cases r <;> decide

theorem digitChar_toNat (n : Nat) : (digitChar n).toNat = 48 + n % 10 := by
  unfold digitChar
  have h : n % 10 < 10 := Nat.mod_lt _ (by omega)
  revert h
  generalize n % 10 = r
  intro h
  interval_cases r <;> decide

theorem caseJoinRows_no_assoc (db : DB) (ct : CaseRow)
    (hcc : db.criminalCases.filter (fun cc => cc.caseID = ct.caseID) = [])
    (hcci : db.caseCrimes.filter (fun cci => cci.caseID = ct.caseID) = []) :
    caseJoinRows db ct =
      (caseLocJoin db ct).map (fun l => (l, none, none, none, none)) := by
  unfold caseJoinRows
  rw [hcc, hcci]
  exact flatMap_singleton_eq_map (caseLocJoin db ct)
    (fun l => (l, none, none, none, none))

theorem mkCaseAggRow_no_assoc (db : DB) (ct : CaseRow)
    (hcc : ∀ cc ∈ db.criminalCases, ¬cc.caseID = ct.caseID)
    (hcci : ∀ cci ∈ db.caseCrimes, ¬cci.caseID = ct.caseID) :
    (mkCaseAggRow db ct).criminals = some " " ∧ (mkCaseAggRow db ct).crimes = none := by
  have hcc' : db.criminalCases.filter (fun cc => cc.caseID = ct.caseID) = [] := by
    rw [List.filter_eq_nil_iff]
    intro cc hmem
    simpa using hcc cc hmem
  have hcci' : db.caseCrimes.filter (fun cci => cci.caseID = ct.caseID) = [] := by
    rw [List.filter_eq_nil_iff]
    intro cci hmem
    simpa using hcci cci hmem
  have hrows := caseJoinRows_no_assoc db ct hcc' hcci'
  have hne : caseJoinRows db ct ≠ [] := by
    rw [hrows]
    simp [ljoin_ne_nil (db.locations.filter (fun l => ct.locationID = some l.locationID)), caseLocJoin]
  constructor
  · show stringAggDistinct _ ", " = some " "
    apply stringAgg_all_space
    · simpa using hne
    · intro v hv
      rw [List.mem_map] at hv
      obtain ⟨r, hr, rfl⟩ := hv
      rw [hrows, List.mem_map] at hr
      obtain ⟨l, _, rfl⟩ := hr
      rfl
  · show stringAggDistinct _ ", " = none
    apply stringAgg_all_none
    intro v hv
    rw [List.mem_map] at hv
    obtain ⟨r, hr, rfl⟩ := hv
    rw [hrows, List.mem_map] at hr
    obtain ⟨l, _, rfl⟩ := hr
    rfl

theorem mem_dedupAdj : ∀ {l : List String} {a : String}, a ∈ dedupAdj l ↔ a ∈ l
  | [], a => by simp [dedupAdj]
  | [x], a => by simp [dedupAdj]
  | x :: y :: rest, a => by
    rw [dedupAdj]
    by_cases h : x = y
    · rw [if_pos h]
      rw [mem_dedupAdj]
      subst h
      simp [List.mem_cons]
    · rw [if_neg h]
      simp [List.mem_cons, mem_dedupAdj]

theorem dedupAdj_nodup : ∀ {l : List String}, l.Sorted (· ≤ ·) → (dedupAdj l).Nodup
  | [], _ => by simp [dedupAdj]
  | [x], _ => by simp [dedupAdj]
  | x :: y :: rest, hl => by
    rw [dedupAdj]
    have hxy : x ≤ y := (List.sorted_cons.mp hl).1 y (by simp)
    have htail : (y :: rest).Sorted (· ≤ ·) := (List.sorted_cons.mp hl).2
    by_cases h : x = y
    · rw [if_pos h]
      exact dedupAdj_nodup htail
    · rw [if_neg h]
      refine List.nodup_cons.mpr ⟨?_, dedupAdj_nodup htail⟩
      intro hmem
      rw [mem_dedupAdj] at hmem
      rcases List.mem_cons.mp hmem with heq | hx
      · exact h heq
      · exact h (le_antisymm hxy ((List.sorted_cons.mp htail).1 x hx))

theorem insertBy_strLe_sorted {x : String} {l : List String} (hl : l.Sorted (· ≤ ·)) :
    (insertBy strLe x l).Sorted (· ≤ ·) := by
  induction l with
  | nil => simp [insertBy]
  | cons y ys ih =>
    rw [insertBy]
    by_cases h : strLe x y = true
    · rw [if_pos h]
      have hxy : x ≤ y := by simpa [strLe] using h
      rw [List.sorted_cons]
      refine ⟨?_, hl⟩
      intro b hb
      rcases List.mem_cons.mp hb with rfl | hb'
      · exact hxy
      · exact hxy.trans ((List.sorted_cons.mp hl).1 b hb')
    · rw [if_neg h]
      have hyx : y ≤ x := by
        have hnot : ¬x ≤ y := by simpa [strLe] using h
        exact le_of_not_le hnot
      rw [List.sorted_cons] at hl ⊢
      refine ⟨?_, ih hl.2⟩
      intro b hb
      have hmem : b ∈ x :: ys := (insertBy_perm strLe x ys).mem_iff.mp hb
      rcases List.mem_cons.mp hmem with rfl | hb'
      · exact hyx
      · exact hl.1 b hb'

theorem sortBy_strLe_sorted (l : List String) : (sortBy strLe l).Sorted (· ≤ ·) := by
  induction l with
  | nil => simp [sortBy]
  | cons x xs ih =>
    rw [sortBy]
    exact insertBy_strLe_sorted ih

theorem mem_ljoin_some {ms : List α} {a : α} (h : a ∈ ms) : some a ∈ ljoin ms := by
  cases ms with
  | nil => cases h
  | cons b bs => exact List.mem_map_of_mem some h

theorem mem_ljoin_elim {ms : List α} {x : Option α} (h : x ∈ ljoin ms) :
    (ms = [] ∧ x = none) ∨ ∃ a ∈ ms, x = some a := by
  cases ms with
  | nil =>
    left
    refine ⟨rfl, ?_⟩
    simpa [ljoin] using h
  | cons b bs =>
    right
    rw [show ljoin (b :: bs) = (b :: bs).map some from rfl, List.mem_map] at h
    obtain ⟨a, ha, rfl⟩ := h
    exact ⟨a, ha, rfl⟩

theorem mem_caseJoinRows {db : DB} {ct : CaseRow}
    {row : Option Location × Option CriminalCase × Option Criminal × Option CaseCrime × Option Crime} :
    row ∈ caseJoinRows db ct ↔
      ∃ l cc c cci cr, row = (l, cc, c, cci, cr)
        ∧ l ∈ caseLocJoin db ct
        ∧ cc ∈ ljoin (db.criminalCases.filter (fun cc => cc.caseID = ct.caseID))
        ∧ c ∈ ljoin (criminalSrc db cc)
        ∧ cci ∈ ljoin (db.caseCrimes.filter (fun cci => cci.caseID = ct.caseID))
        ∧ cr ∈ ljoin (crimeSrc db cci) := by
  rw [caseJoinRows]
  simp only [List.mem_flatMap, List.mem_map]
  constructor
  · rintro ⟨l, hl, cc, hcc, c, hc, cci, hcci, cr, hcr, rfl⟩
    exact ⟨l, cc, c, cci, cr, rfl, hl, hcc, hc, hcci, hcr⟩
  · rintro ⟨l, cc, c, cci, cr, rfl, hl, hcc, hc, hcci, hcr⟩
    exact ⟨l, hl, cc, hcc, c, hc, cci, hcci, cr, hcr, rfl⟩

theorem caseJoinRows_ne_nil (db : DB) (ct : CaseRow) : caseJoinRows db ct ≠ [] := by
  obtain ⟨l, hl⟩ := List.exists_mem_of_ne_nil _
    (ljoin_ne_nil (db.locations.filter (fun l => ct.locationID = some l.locationID)))
  obtain ⟨cc, hcc⟩ := List.exists_mem_of_ne_nil _
    (ljoin_ne_nil (db.criminalCases.filter (fun cc => cc.caseID = ct.caseID)))
  obtain ⟨c, hc⟩ := List.exists_mem_of_ne_nil _ (ljoin_ne_nil (criminalSrc db cc))
  obtain ⟨cci, hcci⟩ := List.exists_mem_of_ne_nil _
    (ljoin_ne_nil (db.caseCrimes.filter (fun cci => cci.caseID = ct.caseID)))
  obtain ⟨cr, hcr⟩ := List.exists_mem_of_ne_nil _ (ljoin_ne_nil (crimeSrc db cci))
  exact List.ne_nil_of_mem
    (mem_caseJoinRows.mpr ⟨l, cc, c, cci, cr, rfl, hl, hcc, hc, hcci, hcr⟩)

theorem stringAggDistinct_some_char (vals : List (Option String))
    (hne : vals ≠ []) (hs : ∀ v ∈ vals, v ≠ none) :
    ∃ out : List String,
      stringAggDistinct vals ", " = some (String.intercalate ", " out)
      ∧ out.Nodup
      ∧ ∀ n, n ∈ out ↔ some n ∈ vals := by
  refine ⟨dedupAdj (sortBy strLe (vals.filterMap id)), ?_,
    dedupAdj_nodup (sortBy_strLe_sorted _), ?_⟩
  · have hne2 : dedupAdj (sortBy strLe (vals.filterMap id)) ≠ [] := by
      obtain ⟨v, hv⟩ := List.exists_mem_of_ne_nil vals hne
      cases hv' : v with
      | none => exact absurd hv' (hs v hv)
      | some s =>
        have hmem : s ∈ vals.filterMap id := List.mem_filterMap.mpr ⟨v, hv, by rw [hv']; rfl⟩
        exact List.ne_nil_of_mem (mem_dedupAdj.mpr (mem_sortBy.mpr hmem))
    unfold stringAggDistinct
    cases hd : dedupAdj (sortBy strLe (vals.filterMap id)) with
    | nil => exact absurd hd hne2
    | cons a as => rfl
  · intro n
    rw [mem_dedupAdj, mem_sortBy, List.mem_filterMap]
    constructor
    · rintro ⟨v, hv, hid⟩
      rw [show id v = v from rfl] at hid
      rw [← hid]
      exact hv
    · intro h
      exact ⟨some n, h, rfl⟩

/-! ## Claim theorems -/

/-- C1: login succeeds iff an Officer row with the submitted username
exists and its stored password equals the submitted password by exact
string comparison; on success the session holds that officer's id,
username and display name; on any mismatch the handler reports the one
generic invalid-credentials flash and leaves the session (and database)
unchanged.  Usernames are assumed unique (the login lookup is a
by-username `fetchone()`). -/
theorem login_correct (db : DB) (s : Session) (u p em : String)
    (huniq : (db.officers.map (fun o => o.username)).Nodup) :
    ((loginHandler db s true true u p false em).resp = Resp.redirect "dashboard" ↔
      ∃ o ∈ db.officers, o.username = u ∧ o.passwordhash = p)
    ∧ (∀ o ∈ db.officers, o.username = u → o.passwordhash = p →
        (loginHandler db s true true u p false em).session =
          { officerId := some o.officerid, username := some o.username,
            officerName := some (o.firstname ++ " " ++ o.lastname) }
        ∧ (loginHandler db s true true u p false em).resp = Resp.redirect "dashboard")
    ∧ ((loginHandler db s true true u p false em).resp ≠ Resp.redirect "dashboard" →
        (loginHandler db s true true u p false em).session = s
        ∧ (loginHandler db s true true u p false em).flashes =
            [("Invalid username or password! Use: admin / admin123", "error")]
        ∧ (loginHandler db s true true u p false em).db = db) := by
  cases hfind : lookupOfficer db u with
  | none =>
    have hnone : ∀ o ∈ db.officers, o.username ≠ u := fun o ho => by
      simpa using List.find?_eq_none.mp hfind o ho
    refine ⟨⟨fun hresp => ?_, ?_⟩, ?_, ?_⟩
    · exfalso
      revert hresp
      simp [loginHandler, hfind]
    · rintro ⟨o, ho, hu, _⟩
      exact absurd hu (hnone o ho)
    · intro o ho hu _
      exact absurd hu (hnone o ho)
    · intro _
      refine ⟨?_, ?_, ?_⟩ <;> simp [loginHandler, hfind]
  | some o =>
    have hpa : o.username = u := by simpa using List.find?_some hfind
    have hmem : o ∈ db.officers := List.mem_of_find?_eq_some hfind
    by_cases hpw : o.passwordhash = p
    · refine ⟨⟨fun _ => ⟨o, hmem, hpa, hpw⟩, fun _ => ?_⟩, ?_, ?_⟩
      · simp [loginHandler, hfind, hpw]
      · intro o' ho' hu' _
        have heq : o' = o := List.inj_on_of_nodup_map huniq ho' hmem (by rw [hu', hpa])
        subst heq
        constructor <;> simp [loginHandler, hfind, hpw]
      · intro hne
        exfalso
        apply hne
        simp [loginHandler, hfind, hpw]
    · have hrespne : (loginHandler db s true true u p false em).resp ≠ Resp.redirect "dashboard" := by
        simp [loginHandler, hfind, hpw]
      refine ⟨⟨fun hr => absurd hr hrespne, ?_⟩, ?_, ?_⟩
      · rintro ⟨o', ho', hu', hp'⟩
        have heq : o' = o := List.inj_on_of_nodup_map huniq ho' hmem (by rw [hu', hpa])
        subst heq
        exact absurd hp' hpw
      · intro o' ho' hu' hp'
        have heq : o' = o := List.inj_on_of_nodup_map huniq ho' hmem (by rw [hu', hpa])
        subst heq
        exact absurd hp' hpw
      · intro _
        refine ⟨?_, ?_, ?_⟩ <;> simp [loginHandler, hfind, hpw]

/-- Witness for C1: the sample officer logs in with the right password,
the session is populated; evaluation at the concrete database. -/
theorem login_correct_witness :
    (loginHandler dbAuth Session.empty true true "admin" "admin123" false "").resp =
      Resp.redirect "dashboard"
    ∧ (loginHandler dbAuth Session.empty true true "admin" "admin123" false "").session = sAdmin := by
  have h := login_correct dbAuth Session.empty "admin" "admin123" "" (by decide)
  rcases h.2.1 officerAdmin (by decide) rfl rfl with ⟨hs, hr⟩
  refine ⟨hr, ?_⟩
  rw [hs]
  decide

/-- C2: deleting a Criminal that exists and is referenced by at least
one CriminalCase row fails with the special-cased human-readable
foreign-key flash and leaves the database unchanged; deleting a
Criminal referenced by no CriminalCase row succeeds and removes exactly
the rows with that id, touching nothing else. -/
theorem delete_criminal_fk (db : DB) (s : Session) (oid cid : Nat) (em : String)
    (hauth : s.officerId = some oid) :
    ((∃ c ∈ db.criminals, c.criminalID = cid) →
      (∃ cc ∈ db.criminalCases, cc.criminalID = cid) →
      (deleteCriminalHandler db s cid true false em).db = db
      ∧ (deleteCriminalHandler db s cid true false em).flashes =
          [("Error: Cannot delete criminal. They are still associated with one or more cases.", "error")])
    ∧ ((∀ cc ∈ db.criminalCases, cc.criminalID ≠ cid) →
      (deleteCriminalHandler db s cid true false em).db =
        { db with criminals := db.criminals.filter (fun c => !(c.criminalID = cid)) }
      ∧ (deleteCriminalHandler db s cid true false em).flashes =
          [("Criminal record deleted successfully.", "success")]) := by
  constructor
  · rintro ⟨c, hc, hcid⟩ ⟨cc, hcc, hccid⟩
    have hb : criminalDeleteBlocked db cid = true := by
      rw [criminalDeleteBlocked, Bool.and_eq_true, List.any_eq_true, List.any_eq_true]
      exact ⟨⟨c, hc, by simpa using hcid⟩, ⟨cc, hcc, by simpa using hccid⟩⟩
    have hsub : containsSubstr fkDeleteCriminalError "violates foreign key constraint" = true := by
      decide
    constructor <;> simp [deleteCriminalHandler, hauth, hb, hsub]
  · intro hnone
    have h2 : db.criminalCases.any (fun cc => cc.criminalID = cid) = false := by
      rw [List.any_eq_false]
      intro cc hcc
      simpa using hnone cc hcc
    have hb : criminalDeleteBlocked db cid = false := by
      rw [criminalDeleteBlocked, h2, Bool.and_false]
    constructor <;> simp [deleteCriminalHandler, hauth, hb]

/-- Witness for C2: in the sample database the criminal is referenced,
so the delete is blocked, the database is unchanged and the friendly
foreign-key flash is shown. -/
theorem delete_criminal_fk_witness :
    (deleteCriminalHandler dbRef sAdmin 1 true false "").db = dbRef
    ∧ (deleteCriminalHandler dbRef sAdmin 1 true false "").flashes =
        [("Error: Cannot delete criminal. They are still associated with one or more cases.", "error")] := by
  exact (delete_criminal_fk dbRef sAdmin 1 1 "" rfl).1
    ⟨crimJohn, by decide, by decide⟩ ⟨ccJohnRobbery, by decide, by decide⟩

/-- C3 (amended): in the case listing each stored case appears exactly
once, whatever its associations.  A case with no associated criminals
and no associated crimes carries a NULL (`none`) crimes aggregate and a
criminals aggregate equal to the single-space string `" "` — the value
`STRING_AGG(DISTINCT CONCAT(c.FirstName, ' ', c.LastName), ', ')`
produces from the all-NULL name columns of the matchless left join —
rather than an empty string.  A case with associated criminals (resp.
crimes), each association resolving to a stored row, carries the
comma-join of a duplicate-free list holding exactly the full names of
its associated criminals (resp. the types of its associated crimes). -/
theorem cases_listing_agg (db : DB) (ct : CaseRow)
    (hct : ct ∈ db.cases)
    (hids : (db.cases.map (fun c => c.caseID)).Nodup) :
    (casesAggregate db).countP (fun r => r.caseID = ct.caseID) = 1
    ∧ ((∀ cc ∈ db.criminalCases, cc.caseID ≠ ct.caseID) →
       (∀ cci ∈ db.caseCrimes, cci.caseID ≠ ct.caseID) →
       ∀ r ∈ casesAggregate db, r.caseID = ct.caseID →
         r.criminals = some " " ∧ r.crimes = none)
    ∧ ((∃ cc ∈ db.criminalCases, cc.caseID = ct.caseID) →
       (∀ cc ∈ db.criminalCases, cc.caseID = ct.caseID →
          ∃ c ∈ db.criminals, c.criminalID = cc.criminalID) →
       ∀ r ∈ casesAggregate db, r.caseID = ct.caseID →
         ∃ names : List String,
           r.criminals = some (String.intercalate ", " names)
           ∧ names.Nodup
           ∧ ∀ n : String, (n ∈ names ↔
               ∃ cc ∈ db.criminalCases, cc.caseID = ct.caseID ∧
                 ∃ c ∈ db.criminals, c.criminalID = cc.criminalID ∧
                   n = c.firstName ++ " " ++ c.lastName))
    ∧ ((∃ cci ∈ db.caseCrimes, cci.caseID = ct.caseID) →
       (∀ cci ∈ db.caseCrimes, cci.caseID = ct.caseID →
          ∃ cr ∈ db.crimes, cr.crimeID = cci.crimeID) →
       ∀ r ∈ casesAggregate db, r.caseID = ct.caseID →
         ∃ types : List String,
           r.crimes = some (String.intercalate ", " types)
           ∧ types.Nodup
           ∧ ∀ ty : String, (ty ∈ types ↔
               ∃ cci ∈ db.caseCrimes, cci.caseID = ct.caseID ∧
                 ∃ cr ∈ db.crimes, cr.crimeID = cci.crimeID ∧
                   ty = cr.crimeType)) := by
  have hreduce : ∀ r ∈ casesAggregate db, r.caseID = ct.caseID → r = mkCaseAggRow db ct := by
    intro r hr hid
    obtain ⟨ct', hct', rfl⟩ := List.mem_map.mp (((sortBy_perm _ _).mem_iff).mp hr)
    have hcteq : ct' = ct := List.inj_on_of_nodup_map hids hct' hct hid
    rw [hcteq]
  refine ⟨?_, ?_, ?_, ?_⟩
  · rw [casesAggregate,
      (sortBy_perm (fun a b => decide (b.caseID ≤ a.caseID)) (db.cases.map (mkCaseAggRow db))).countP_eq,
      List.countP_map]
    have hcnt : List.countP ((fun r => decide (r.caseID = ct.caseID)) ∘ mkCaseAggRow db) db.cases
        = List.countP (fun i => decide (i = ct.caseID)) (db.cases.map (fun c => c.caseID)) := by
      rw [List.countP_map]
      rfl
    rw [hcnt]
    have hmem : ct.caseID ∈ db.cases.map (fun c => c.caseID) := List.mem_map_of_mem _ hct
    have := List.count_eq_one_of_mem hids hmem
    rw [← this, List.count]
    congr 1
  · intro hcc hcci r hr hrid
    rw [hreduce r hr hrid]
    exact mkCaseAggRow_no_assoc db ct
      (fun cc hm => by simpa using hcc cc hm)
      (fun cci hm => by simpa using hcci cci hm)
  · intro hex hri r hr hrid
    rw [hreduce r hr hrid]
    obtain ⟨row0, hrow0⟩ := List.exists_mem_of_ne_nil _ (caseJoinRows_ne_nil db ct)
    have hne : ((caseJoinRows db ct).map (fun row => some (sqlConcatName
        (row.2.2.1.map (·.firstName)) (row.2.2.1.map (·.lastName))))) ≠ [] :=
      List.ne_nil_of_mem (List.mem_map_of_mem _ hrow0)
    have hsome : ∀ v ∈ (caseJoinRows db ct).map (fun row => some (sqlConcatName
        (row.2.2.1.map (·.firstName)) (row.2.2.1.map (·.lastName)))), v ≠ none := by
      intro v hv
      rw [List.mem_map] at hv
      obtain ⟨row, _, rfl⟩ := hv
      simp
    obtain ⟨out, hagg, hnodup, hiff⟩ := stringAggDistinct_some_char _ hne hsome
    refine ⟨out, hagg, hnodup, ?_⟩
    intro n
    rw [hiff, List.mem_map]
    constructor
    · rintro ⟨row, hrow, heq⟩
      obtain ⟨l, cc, c, cci, cr, rfl, hl, hcc2, hc2, hcci2, hcr2⟩ := mem_caseJoinRows.mp hrow
      rcases mem_ljoin_elim hcc2 with ⟨hnil, hccnone⟩ | ⟨cc0, hcc0, rfl⟩
      · exfalso
        obtain ⟨cc1, hm1, hcase1⟩ := hex
        have hmem1 : cc1 ∈ db.criminalCases.filter (fun cc => cc.caseID = ct.caseID) :=
          List.mem_filter.mpr ⟨hm1, by simpa using hcase1⟩
        rw [hnil] at hmem1
        cases hmem1
      · have hcc0' := List.mem_filter.mp hcc0
        have hcase0 : cc0.caseID = ct.caseID := by simpa using hcc0'.2
        rcases mem_ljoin_elim hc2 with ⟨hnil, hcnone⟩ | ⟨c0, hc0, rfl⟩
        · exfalso
          obtain ⟨c1, hm1, hid1⟩ := hri cc0 hcc0'.1 hcase0
          have hmem1 : c1 ∈ criminalSrc db (some cc0) :=
            List.mem_filter.mpr ⟨hm1, by simpa using hid1⟩
          rw [hnil] at hmem1
          cases hmem1
        · have hc0' := List.mem_filter.mp hc0
          refine ⟨cc0, hcc0'.1, hcase0, c0, hc0'.1, by simpa using hc0'.2, ?_⟩
          have heq' := Option.some.inj heq
          rw [← heq']
          rfl
    · rintro ⟨cc0, hcc0, hcase0, c0, hc0, hcid0, rfl⟩
      obtain ⟨l, hl⟩ := List.exists_mem_of_ne_nil _
        (ljoin_ne_nil (db.locations.filter (fun l => ct.locationID = some l.locationID)))
      obtain ⟨cci, hcci⟩ := List.exists_mem_of_ne_nil _
        (ljoin_ne_nil (db.caseCrimes.filter (fun cci => cci.caseID = ct.caseID)))
      obtain ⟨cr, hcr⟩ := List.exists_mem_of_ne_nil _ (ljoin_ne_nil (crimeSrc db cci))
      refine ⟨(l, some cc0, some c0, cci, cr),
        mem_caseJoinRows.mpr ⟨l, some cc0, some c0, cci, cr, rfl, hl, ?_, ?_, hcci, hcr⟩, rfl⟩
      · exact mem_ljoin_some (List.mem_filter.mpr ⟨hcc0, by simpa using hcase0⟩)
      · exact mem_ljoin_some (List.mem_filter.mpr ⟨hc0, by simpa using hcid0⟩)
  · intro hex2 hri2 r hr hrid
    rw [hreduce r hr hrid]
    obtain ⟨row0, hrow0⟩ := List.exists_mem_of_ne_nil _ (caseJoinRows_ne_nil db ct)
    have hne : ((caseJoinRows db ct).map (fun row => row.2.2.2.2.map (·.crimeType))) ≠ [] :=
      List.ne_nil_of_mem (List.mem_map_of_mem _ hrow0)
    have hsome : ∀ v ∈ (caseJoinRows db ct).map (fun row => row.2.2.2.2.map (·.crimeType)),
        v ≠ none := by
      intro v hv
      rw [List.mem_map] at hv
      obtain ⟨row, hrow, rfl⟩ := hv
      obtain ⟨l, cc, c, cci, cr, rfl, hl, hcc2, hc2, hcci2, hcr2⟩ := mem_caseJoinRows.mp hrow
      rcases mem_ljoin_elim hcci2 with ⟨hnil, rfl⟩ | ⟨cci0, hcci0, rfl⟩
      · exfalso
        obtain ⟨cci1, hm1, hcase1⟩ := hex2
        have hmem1 : cci1 ∈ db.caseCrimes.filter (fun cci => cci.caseID = ct.caseID) :=
          List.mem_filter.mpr ⟨hm1, by simpa using hcase1⟩
        rw [hnil] at hmem1
        cases hmem1
      · have hcci0' := List.mem_filter.mp hcci0
        rcases mem_ljoin_elim hcr2 with ⟨hnil, rfl⟩ | ⟨cr0, hcr0, rfl⟩
        · exfalso
          obtain ⟨cr1, hm1, hid1⟩ := hri2 cci0 hcci0'.1 (by simpa using hcci0'.2)
          have hmem1 : cr1 ∈ crimeSrc db (some cci0) :=
            List.mem_filter.mpr ⟨hm1, by simpa using hid1⟩
          rw [hnil] at hmem1
          cases hmem1
        · simp
    obtain ⟨out, hagg, hnodup, hiff⟩ := stringAggDistinct_some_char _ hne hsome
    refine ⟨out, hagg, hnodup, ?_⟩
    intro ty
    rw [hiff, List.mem_map]
    constructor
    · rintro ⟨row, hrow, heq⟩
      obtain ⟨l, cc, c, cci, cr, rfl, hl, hcc2, hc2, hcci2, hcr2⟩ := mem_caseJoinRows.mp hrow
      cases cr with
      | none => exact absurd heq (by simp)
      | some cr0 =>
        rcases mem_ljoin_elim hcr2 with ⟨hnil, hcontra⟩ | ⟨cr1, hcr1, hinj⟩
        · cases hcontra
        · have hcr1eq : cr0 = cr1 := Option.some.inj hinj
          subst hcr1eq
          cases cci with
          | none => cases hcr1
          | some cci0 =>
            rcases mem_ljoin_elim hcci2 with ⟨hnil, hcontra⟩ | ⟨cci1, hcci1, hinj2⟩
            · cases hcontra
            · have hcci1eq : cci0 = cci1 := Option.some.inj hinj2
              subst hcci1eq
              have hcci0' := List.mem_filter.mp hcci1
              have hcr0' := List.mem_filter.mp hcr1
              refine ⟨cci0, hcci0'.1, by simpa using hcci0'.2,
                cr0, hcr0'.1, by simpa using hcr0'.2, ?_⟩
              have heq' := Option.some.inj heq
              rw [← heq']
    · rintro ⟨cci0, hcci0, hcase0, cr0, hcr0, hid0, rfl⟩
      obtain ⟨l, hl⟩ := List.exists_mem_of_ne_nil _
        (ljoin_ne_nil (db.locations.filter (fun l => ct.locationID = some l.locationID)))
      obtain ⟨cc, hcc⟩ := List.exists_mem_of_ne_nil _
        (ljoin_ne_nil (db.criminalCases.filter (fun cc => cc.caseID = ct.caseID)))
      obtain ⟨c, hc⟩ := List.exists_mem_of_ne_nil _ (ljoin_ne_nil (criminalSrc db cc))
      refine ⟨(l, cc, c, some cci0, some cr0),
        mem_caseJoinRows.mpr ⟨l, cc, c, some cci0, some cr0, rfl, hl, hcc, hc, ?_, ?_⟩, rfl⟩
      · exact mem_ljoin_some (List.mem_filter.mpr ⟨hcci0, by simpa using hcase0⟩)
      · exact mem_ljoin_some (List.mem_filter.mpr ⟨hcr0, by simpa using hid0⟩)

/-- Counterexample for C3 as stated: in a database holding one case and
no associations, the case does appear exactly once, but its criminals
aggregate is the single-space string, not an empty string (and not
NULL): the claim's "empty aggregate string fields" fails. -/
theorem cases_listing_counterexample :
    (casesAggregate dbLoneCase).length = 1
    ∧ ∀ r ∈ casesAggregate dbLoneCase,
        r.criminals ≠ some "" ∧ r.criminals ≠ none ∧ r.criminals = some " " := by
  decide

/-- C4: with no `officer_id` in the session, every protected handler
(dashboard, reports, search, and all criminal and case CRUD routes)
returns the login redirect without opening a database connection,
without touching the database, without raising, and without flashing. -/
theorem auth_guard (db : DB) (s : Session) (connOk isPost qFail : Bool)
    (errMsg searchType query : String) (cf : CriminalForm) (caf : CaseForm)
    (cid newId now : Nat) (t : DateTime) (h : s.officerId = none) :
    dashboardHandler db s connOk qFail errMsg = unauthOut db s
    ∧ reportsHandler db s connOk qFail errMsg = unauthOut db s
    ∧ searchHandler db s isPost connOk searchType query qFail errMsg = unauthOut db s
    ∧ criminalsHandler db s connOk qFail = unauthOut db s
    ∧ addCriminalHandler db s isPost connOk cf newId qFail errMsg = unauthOut db s
    ∧ editCriminalHandler db s cid isPost connOk cf now qFail errMsg = unauthOut db s
    ∧ deleteCriminalHandler db s cid connOk qFail errMsg = unauthOut db s
    ∧ casesHandler db s connOk qFail errMsg = unauthOut db s
    ∧ addCaseHandler db s isPost connOk caf t newId qFail errMsg = unauthOut db s
    ∧ editCaseHandler db s cid isPost connOk caf now qFail errMsg = unauthOut db s
    ∧ deleteCaseHandler db s cid connOk qFail errMsg = unauthOut db s
    ∧ (unauthOut db s).resp = Resp.redirect "login"
    ∧ (unauthOut db s).db = db
    ∧ (unauthOut db s).connOpened = false
    ∧ (unauthOut db s).raised = false
    ∧ (unauthOut db s).flashes = [] := by
  refine ⟨?_, ?_, ?_, ?_, ?_, ?_, ?_, ?_, ?_, ?_, ?_, rfl, rfl, rfl, rfl, rfl⟩
  · rw [dashboardHandler, if_pos h]
  · rw [reportsHandler, if_pos h]
  · rw [searchHandler, if_pos h]
  · rw [criminalsHandler, if_pos h]
  · rw [addCriminalHandler, if_pos h]
  · rw [editCriminalHandler, if_pos h]
  · rw [deleteCriminalHandler, if_pos h]
  · rw [casesHandler, if_pos h]
  · rw [addCaseHandler, if_pos h]
  · rw [editCaseHandler, if_pos h]
  · rw [deleteCaseHandler, if_pos h]

/-- Witness for C4: with an empty session the dashboard handler is the
pure login redirect. -/
theorem auth_guard_witness :
    dashboardHandler dbAuth Session.empty true false "" = unauthOut dbAuth Session.empty
    ∧ (unauthOut dbAuth Session.empty).resp = Resp.redirect "login" := by
  have h := auth_guard dbAuth Session.empty true true false "" "criminal" "x"
    cfSample cafSample 1 2 3 t0 rfl
  exact ⟨h.1, h.2.2.2.2.2.2.2.2.2.2.2.1⟩

/-- C5 (amended): every request handler except the criminals list
handler closes the connection it acquired on every branch and lets no
error escape; the criminals list handler runs its queries with no
`try/finally`, so when a query raises there, the connection is left
unclosed and the exception escapes the handler. -/
theorem connection_cleanup (db : DB) (s : Session) (connOk isPost qFail : Bool)
    (u pw errMsg searchType query : String) (cf : CriminalForm) (caf : CaseForm)
    (cid newId now oid : Nat) (t : DateTime) :
    cleansUp (indexHandler db s)
    ∧ cleansUp (loginHandler db s isPost connOk u pw qFail errMsg)
    ∧ cleansUp (logoutHandler db s)
    ∧ cleansUp (dashboardHandler db s connOk qFail errMsg)
    ∧ cleansUp (reportsHandler db s connOk qFail errMsg)
    ∧ cleansUp (searchHandler db s isPost connOk searchType query qFail errMsg)
    ∧ cleansUp (addCriminalHandler db s isPost connOk cf newId qFail errMsg)
    ∧ cleansUp (editCriminalHandler db s cid isPost connOk cf now qFail errMsg)
    ∧ cleansUp (deleteCriminalHandler db s cid connOk qFail errMsg)
    ∧ cleansUp (casesHandler db s connOk qFail errMsg)
    ∧ cleansUp (addCaseHandler db s isPost connOk caf t newId qFail errMsg)
    ∧ cleansUp (editCaseHandler db s cid isPost connOk caf now qFail errMsg)
    ∧ cleansUp (deleteCaseHandler db s cid connOk qFail errMsg)
    ∧ cleansUp (criminalsHandler db s connOk false)
    ∧ (s.officerId = some oid → connOk = true → qFail = true →
        (criminalsHandler db s connOk qFail).connOpened = true
        ∧ (criminalsHandler db s connOk qFail).connClosed = false
        ∧ (criminalsHandler db s connOk qFail).raised = true) := by
  refine ⟨?_, ?_, ?_, ?_, ?_, ?_, ?_, ?_, ?_, ?_, ?_, ?_, ?_, ?_, ?_⟩
  · exact ⟨fun h => Bool.noConfusion h, rfl⟩
  · unfold cleansUp loginHandler
    repeat' split
    all_goals first
      | exact ⟨fun _ => rfl, rfl⟩
      | exact ⟨fun h => Bool.noConfusion h, rfl⟩
      | simp_all
  · exact ⟨fun h => Bool.noConfusion h, rfl⟩
  · unfold cleansUp dashboardHandler
    repeat' split
    all_goals first
      | exact ⟨fun _ => rfl, rfl⟩
      | exact ⟨fun h => Bool.noConfusion h, rfl⟩
      | simp_all
  · unfold cleansUp reportsHandler
    repeat' split
    all_goals first
      | exact ⟨fun _ => rfl, rfl⟩
      | exact ⟨fun h => Bool.noConfusion h, rfl⟩
      | simp_all
  · unfold cleansUp searchHandler
    repeat' split
    all_goals first
      | exact ⟨fun _ => rfl, rfl⟩
      | exact ⟨fun h => Bool.noConfusion h, rfl⟩
      | simp_all
  · unfold cleansUp addCriminalHandler
    repeat' split
    all_goals first
      | exact ⟨fun _ => rfl, rfl⟩
      | exact ⟨fun h => Bool.noConfusion h, rfl⟩
      | simp_all
  · unfold cleansUp editCriminalHandler
    repeat' split
    all_goals first
      | exact ⟨fun _ => rfl, rfl⟩
      | exact ⟨fun h => Bool.noConfusion h, rfl⟩
      | simp_all
  · unfold cleansUp deleteCriminalHandler
    repeat' split
    all_goals first
      | exact ⟨fun _ => rfl, rfl⟩
      | exact ⟨fun h => Bool.noConfusion h, rfl⟩
      | simp_all
  · unfold cleansUp casesHandler
    repeat' split
    all_goals first
      | exact ⟨fun _ => rfl, rfl⟩
      | exact ⟨fun h => Bool.noConfusion h, rfl⟩
      | simp_all
  · unfold cleansUp addCaseHandler
    repeat' split
    all_goals first
      | exact ⟨fun _ => rfl, rfl⟩
      | exact ⟨fun h => Bool.noConfusion h, rfl⟩
      | simp_all
  · unfold cleansUp editCaseHandler
    repeat' split
    all_goals first
      | exact ⟨fun _ => rfl, rfl⟩
      | exact ⟨fun h => Bool.noConfusion h, rfl⟩
      | simp_all
  · unfold cleansUp deleteCaseHandler
    repeat' split
    all_goals first
      | exact ⟨fun _ => rfl, rfl⟩
      | exact ⟨fun h => Bool.noConfusion h, rfl⟩
      | simp_all
  · unfold cleansUp criminalsHandler
    repeat' split
    all_goals first
      | exact ⟨fun _ => rfl, rfl⟩
      | exact ⟨fun h => Bool.noConfusion h, rfl⟩
      | simp_all
  · intro h1 h2 h3
    subst h2
    subst h3
    refine ⟨?_, ?_, ?_⟩ <;> simp [criminalsHandler, h1]

/-- Counterexample for C5 as stated: an authenticated request to the
criminals list whose query raises leaves the acquired connection open
and lets the error escape — no always-run finalizer exists on that
route. -/
theorem connection_cleanup_counterexample :
    (criminalsHandler dbAuth sAdmin true true).connOpened = true
    ∧ (criminalsHandler dbAuth sAdmin true true).connClosed = false
    ∧ (criminalsHandler dbAuth sAdmin true true).raised = true := by
  decide

/-- Witness for C5 (amended): concrete evaluation — the dashboard
handler cleans up even when its query fails, while the criminals
handler does not. -/
theorem connection_cleanup_witness :
    cleansUp (dashboardHandler dbAuth sAdmin true true "boom")
    ∧ (criminalsHandler dbAuth sAdmin true true).connClosed = false := by
  have h := connection_cleanup dbAuth sAdmin true true true "admin" "x" "boom"
    "criminal" "q" cfSample cafSample 1 2 3 1 t0
  exact ⟨h.2.2.2.1, (h.2.2.2.2.2.2.2.2.2.2.2.2.2.2 rfl rfl rfl).2.1⟩

/-- C6 (amended): for a non-empty query term containing no SQL LIKE
wildcard or escape characters (no percent, underscore, or backslash), a
Criminal row is in the criminal-search result iff the term is a
case-insensitive substring of its first name, last name, or national
id, and a Case row is in the case-search result (paired with its
left-joined location) iff the term is a case-insensitive substring of
its title, description, or case number; whenever at least one row
matches, the handler flashes the found-count message.  (For terms
containing wildcard characters the LIKE semantics diverge from plain
substring containment.) -/
theorem search_results_characterization (db : DB) (s : Session) (oid : Nat)
    (query em : String) (hauth : s.officerId = some oid) (hq : query ≠ "")
    (hw : ∀ c ∈ query.data, c ≠ '%' ∧ c ≠ '_' ∧ c ≠ '\\') :
    (∀ c : Criminal, c ∈ searchCriminals db query ↔ c ∈ db.criminals ∧
      (isCISubstring query c.firstName = true ∨ isCISubstring query c.lastName = true
        ∨ isCISubstring query c.nationalID = true))
    ∧ (∀ ct : CaseRow, (∃ lo, (ct, lo) ∈ searchCases db query) ↔ ct ∈ db.cases ∧
      (isCISubstring query ct.caseTitle = true ∨ isCISubstring query ct.description = true
        ∨ isCISubstring query ct.caseNumber = true))
    ∧ (searchCriminals db query ≠ [] →
        (searchHandler db s true true "criminal" query false em).flashes =
          [("Found " ++ toString (searchCriminals db query).length ++ " result(s).", "success")])
    ∧ (searchCases db query ≠ [] →
        (searchHandler db s true true "case" query false em).flashes =
          [("Found " ++ toString (searchCases db query).length ++ " result(s).", "success")]) := by
  have hcm : ∀ c : Criminal, criminalMatches query c = true ↔
      (isCISubstring query c.firstName = true ∨ isCISubstring query c.lastName = true
        ∨ isCISubstring query c.nationalID = true) := by
    intro c
    rw [criminalMatches, Bool.or_eq_true, Bool.or_eq_true,
      sqlLikeCI_iff_substring hw, sqlLikeCI_iff_substring hw, sqlLikeCI_iff_substring hw]
    exact or_assoc
  have hctm : ∀ ct : CaseRow, caseMatches query ct = true ↔
      (isCISubstring query ct.caseTitle = true ∨ isCISubstring query ct.description = true
        ∨ isCISubstring query ct.caseNumber = true) := by
    intro ct
    rw [caseMatches, Bool.or_eq_true, Bool.or_eq_true,
      sqlLikeCI_iff_substring hw, sqlLikeCI_iff_substring hw, sqlLikeCI_iff_substring hw]
    exact or_assoc
  refine ⟨?_, ?_, ?_, ?_⟩
  · intro c
    rw [searchCriminals, List.mem_filter, hcm]
  · intro ct
    constructor
    · rintro ⟨lo, hmem⟩
      rw [searchCases, List.mem_filter] at hmem
      obtain ⟨hin, hmatch⟩ := hmem
      rw [List.mem_flatMap] at hin
      obtain ⟨ct', hct', hmap⟩ := hin
      rw [List.mem_map] at hmap
      obtain ⟨l, _, heq⟩ := hmap
      have hct2 : ct' = ct := congrArg Prod.fst heq
      subst hct2
      exact ⟨hct', (hctm ct').mp hmatch⟩
    · rintro ⟨hct, hm⟩
      obtain ⟨l, hl⟩ := List.exists_mem_of_ne_nil _ (ljoin_ne_nil _)
      refine ⟨l, ?_⟩
      rw [searchCases, List.mem_filter]
      constructor
      · rw [List.mem_flatMap]
        exact ⟨ct, hct, List.mem_map_of_mem _ hl⟩
      · exact (hctm ct).mpr hm
  · intro hne
    have hie : (searchCriminals db query).isEmpty = false := by
      cases he : (searchCriminals db query).isEmpty
      · rfl
      · exact absurd (List.isEmpty_iff.mp he) hne
    simp [searchHandler, hauth, hq, hie]
  · intro hne
    have hie : (searchCases db query).isEmpty = false := by
      cases he : (searchCases db query).isEmpty
      · rfl
      · exact absurd (List.isEmpty_iff.mp he) hne
    simp [searchHandler, hauth, hq, hie]

/-- Witness for C6: searching for "smith" finds the stored criminal
whose last name is "Smith" (case-insensitive) and the handler reports
the found count. -/
theorem search_results_characterization_witness :
    crimJohn ∈ searchCriminals dbSearch "smith"
    ∧ (searchHandler dbSearch sAdmin true true "criminal" "smith" false "").flashes =
        [("Found 1 result(s).", "success")] := by
  have h := search_results_characterization dbSearch sAdmin 1 "smith" "" rfl
    (by decide) (by decide)
  have hmem : crimJohn ∈ searchCriminals dbSearch "smith" :=
    (h.1 crimJohn).mpr ⟨by decide, Or.inr (Or.inl (by decide))⟩
  refine ⟨hmem, ?_⟩
  have hflash := h.2.2.1 (List.ne_nil_of_mem hmem)
  rw [show (searchCriminals dbSearch "smith").length = 1 from by decide] at hflash
  exact hflash.trans (by decide)

/-- Counterexample for C6 as stated: the query term "sm_th" (an
underscore is a LIKE single-character wildcard) matches the stored row
with last name "Smith", yet "sm_th" is not a case-insensitive substring
of any of the three searched columns. -/
theorem search_results_counterexample :
    searchCriminals dbSearch "sm_th" = [crimJohn]
    ∧ isCISubstring "sm_th" crimJohn.firstName = false
    ∧ isCISubstring "sm_th" crimJohn.lastName = false
    ∧ isCISubstring "sm_th" crimJohn.nationalID = false := by
  decide

/-- C7: the dashboard's open-case count ("Open" or "Under
Investigation") plus its closed-case count (status `LIKE 'Closed%'`)
never exceeds the number of rows of the case table, and its crime_types
count is the row count of the Crime reference table. -/
theorem dashboard_count_bounds (db : DB) :
    (dashboardStats db).openCases + (dashboardStats db).closedCases ≤ db.cases.length
    ∧ (dashboardStats db).crimeTypes = db.crimes.length := by
  constructor
  · apply countP_disjoint_le
    intro ct _ hpq
    obtain ⟨hopen, hclosed⟩ := hpq
    rw [Bool.or_eq_true, decide_eq_true_eq, decide_eq_true_eq] at hopen
    rcases hopen with h | h <;> rw [sqlLike, h] at hclosed <;>
      exact absurd hclosed (by decide)
  · rfl

theorem formatTimestamp_data (t : DateTime) :
    (formatTimestamp t).data =
      [digitChar (t.year / 1000), digitChar (t.year / 100), digitChar (t.year / 10),
       digitChar t.year, digitChar (t.month / 10), digitChar t.month,
       digitChar (t.day / 10), digitChar t.day, digitChar (t.hour / 10), digitChar t.hour,
       digitChar (t.minute / 10), digitChar t.minute,
       digitChar (t.second / 10), digitChar t.second] := rfl

/-- C8: the add-case handler inserts exactly one row, whose CaseNumber
is the string `CASE-` followed by the 14 digits of the creation clock
reading formatted `YYYYMMDDHHMMSS`: the suffix decodes back to the
year, month, day, hour, minute and second, for any valid clock value. -/
theorem add_case_number_format (db : DB) (s : Session) (oid : Nat) (f : CaseForm)
    (t : DateTime) (newId : Nat) (em : String)
    (hauth : s.officerId = some oid)
    (hy1 : 1000 ≤ t.year) (hy2 : t.year ≤ 9999) (hmo : t.month ≤ 12)
    (hd : t.day ≤ 31) (hh : t.hour ≤ 23) (hmi : t.minute ≤ 59) (hs : t.second ≤ 59) :
    (addCaseHandler db s true true f t newId false em).db.cases
      = db.cases ++ [newCaseRow f t newId]
    ∧ (newCaseRow f t newId).caseNumber = "CASE-" ++ formatTimestamp t
    ∧ (formatTimestamp t).data.length = 14
    ∧ (∀ c ∈ (formatTimestamp t).data, c.isDigit = true)
    ∧ decodeDigits ((formatTimestamp t).data.take 4) = t.year
    ∧ decodeDigits (((formatTimestamp t).data.drop 4).take 2) = t.month
    ∧ decodeDigits (((formatTimestamp t).data.drop 6).take 2) = t.day
    ∧ decodeDigits (((formatTimestamp t).data.drop 8).take 2) = t.hour
    ∧ decodeDigits (((formatTimestamp t).data.drop 10).take 2) = t.minute
    ∧ decodeDigits ((formatTimestamp t).data.drop 12) = t.second := by
  refine ⟨?_, rfl, ?_, ?_, ?_, ?_, ?_, ?_, ?_, ?_⟩
  · simp [addCaseHandler, hauth]
  · rw [formatTimestamp_data]
    rfl
  · intro c hc
    rw [formatTimestamp_data] at hc
    simp only [List.mem_cons, List.not_mem_nil, or_false] at hc
    rcases hc with rfl|rfl|rfl|rfl|rfl|rfl|rfl|rfl|rfl|rfl|rfl|rfl|rfl|rfl <;>
      exact digitChar_isDigit _
  · rw [formatTimestamp_data]
    simp [decodeDigits, digitChar_toNat]
    omega
  · rw [formatTimestamp_data]
    simp [decodeDigits, digitChar_toNat]
    omega
  · rw [formatTimestamp_data]
    simp [decodeDigits, digitChar_toNat]
    omega
  · rw [formatTimestamp_data]
    simp [decodeDigits, digitChar_toNat]
    omega
  · rw [formatTimestamp_data]
    simp [decodeDigits, digitChar_toNat]
    omega
  · rw [formatTimestamp_data]
    simp [decodeDigits, digitChar_toNat]
    omega

/-- Witness for C8: concrete evaluation at a sample clock reading. -/
theorem add_case_number_format_witness :
    (addCaseHandler dbAuth sAdmin true true cafSample t0 7 false "").db.cases
      = dbAuth.cases ++ [newCaseRow cafSample t0 7]
    ∧ (newCaseRow cafSample t0 7).caseNumber = "CASE-" ++ formatTimestamp t0
    ∧ (newCaseRow cafSample t0 7).caseNumber = "CASE-20261012131415" := by
  have h := add_case_number_format dbAuth sAdmin 1 cafSample t0 7 "" rfl
    (by decide) (by decide) (by decide) (by decide) (by decide) (by decide) (by decide)
  exact ⟨h.1, h.2.1, by decide⟩

/-- C9: the edit-case update rewrites only the listed columns (title,
description, date reported, date closed, status, priority, location,
investigating officer, updated-at) of the matching rows; every row's
CaseID and CaseNumber are unchanged, positionally, by the update. -/
theorem edit_case_frame (db : DB) (s : Session) (oid cid : Nat) (f : CaseForm)
    (now : Nat) (em : String) (hauth : s.officerId = some oid) :
    (editCaseHandler db s cid true true f now false em).db = updateCase db cid f now
    ∧ (updateCase db cid f now).cases.map (fun ct => (ct.caseID, ct.caseNumber))
        = db.cases.map (fun ct => (ct.caseID, ct.caseNumber))
    ∧ ∀ ct ∈ db.cases, ct.caseID = cid →
        { ct with caseTitle := f.caseTitle, description := f.description,
                  dateReported := f.dateReported, dateClosed := f.dateClosed,
                  status := f.status, priority := f.priority,
                  locationID := some f.locationID,
                  investigatingOfficer := f.investigatingOfficer,
                  updatedAt := some now } ∈ (updateCase db cid f now).cases := by
  refine ⟨?_, ?_, ?_⟩
  · simp [editCaseHandler, hauth]
  · show (db.cases.map _).map _ = _
    rw [List.map_map]
    apply List.map_congr_left
    intro ct _
    by_cases h : ct.caseID = cid <;> simp [h]
  · intro ct hct hid
    show _ ∈ db.cases.map _
    rw [List.mem_map]
    exact ⟨ct, hct, by simp [hid]⟩

/-- Witness for C9: concrete evaluation — the update leaves the sample
case's id and case number in place. -/
theorem edit_case_frame_witness :
    (updateCase dbRef 1 cafSample 99).cases.map (fun ct => (ct.caseID, ct.caseNumber))
      = dbRef.cases.map (fun ct => (ct.caseID, ct.caseNumber)) :=
  (edit_case_frame dbRef sAdmin 1 1 cafSample 99 "" rfl).2.1

/-- C10: any failing case delete rolls the transaction back (database
unchanged) and flashes the raw error text prefixed `Error deleting
case: ` — in particular a delete blocked by an association row surfaces
the raw foreign-key text, with no special-cased friendly message (the
flash differs from the criminal-delete one); an unblocked delete
removes the matching rows. -/
theorem delete_case_error_surface (db : DB) (s : Session) (oid cid : Nat) (em : String)
    (hauth : s.officerId = some oid) :
    (caseDeleteBlocked db cid = true →
        (deleteCaseHandler db s cid true false em).db = db
        ∧ (deleteCaseHandler db s cid true false em).flashes =
            [("Error deleting case: " ++ fkDeleteCaseError, "error")]
        ∧ containsSubstr fkDeleteCaseError "violates foreign key constraint" = true
        ∧ ("Error deleting case: " ++ fkDeleteCaseError) ≠
            "Error: Cannot delete criminal. They are still associated with one or more cases.")
    ∧ (caseDeleteBlocked db cid = false →
        (deleteCaseHandler db s cid true true em).db = db
        ∧ (deleteCaseHandler db s cid true true em).flashes =
            [("Error deleting case: " ++ em, "error")])
    ∧ (caseDeleteBlocked db cid = false →
        (deleteCaseHandler db s cid true false em).db =
          { db with cases := db.cases.filter (fun ct => !(ct.caseID = cid)) }) := by
  refine ⟨?_, ?_, ?_⟩
  · intro hb
    refine ⟨?_, ?_, by decide, by decide⟩ <;> simp [deleteCaseHandler, hauth, hb]
  · intro hb
    constructor <;> simp [deleteCaseHandler, hauth, hb]
  · intro hb
    simp [deleteCaseHandler, hauth, hb]

/-- Witness for C10: in the sample database the case is referenced by
an association row, so the delete fails with the raw prefixed error
text and the database is unchanged. -/
theorem delete_case_error_surface_witness :
    (deleteCaseHandler dbRef sAdmin 1 true false "").db = dbRef
    ∧ (deleteCaseHandler dbRef sAdmin 1 true false "").flashes =
        [("Error deleting case: " ++ fkDeleteCaseError, "error")] := by
  have h := (delete_case_error_surface dbRef sAdmin 1 1 "" rfl).1 (by decide)
  exact ⟨h.1, h.2.1⟩

/-- Witness for C3 (amended): in a database whose single case has two
associated criminals and two associated crimes, the case appears
exactly once and its aggregates are comma-joins of duplicate-free lists
containing both full names and both crime types. -/
theorem cases_listing_agg_witness :
    (casesAggregate dbAssoc).countP (fun r => r.caseID = caseRobbery.caseID) = 1
    ∧ ∀ r ∈ casesAggregate dbAssoc, r.caseID = caseRobbery.caseID →
        (∃ names : List String,
          r.criminals = some (String.intercalate ", " names)
          ∧ names.Nodup ∧ "John Smith" ∈ names ∧ "Jane Doe" ∈ names)
        ∧ (∃ types : List String,
          r.crimes = some (String.intercalate ", " types)
          ∧ types.Nodup ∧ "Theft" ∈ types ∧ "Arson" ∈ types) := by
  have h := cases_listing_agg dbAssoc caseRobbery (by decide) (by decide)
  refine ⟨h.1, ?_⟩
  intro r hr hid
  constructor
  · obtain ⟨names, h1, h2, h3⟩ := h.2.2.1 ⟨ccJohnRobbery, by decide, by decide⟩
      (by decide) r hr hid
    exact ⟨names, h1, h2,
      (h3 "John Smith").mpr
        ⟨ccJohnRobbery, by decide, by decide, crimJohn, by decide, by decide, by decide⟩,
      (h3 "Jane Doe").mpr
        ⟨ccJaneRobbery, by decide, by decide, crimJane, by decide, by decide, by decide⟩⟩
  · obtain ⟨types, h1, h2, h3⟩ := h.2.2.2 ⟨cciTheft, by decide, by decide⟩
      (by decide) r hr hid
    exact ⟨types, h1, h2,
      (h3 "Theft").mpr
        ⟨cciTheft, by decide, by decide, crimeTheft, by decide, by decide, by decide⟩,
      (h3 "Arson").mpr
        ⟨cciArson, by decide, by decide, crimeArson, by decide, by decide, by decide⟩⟩
